import Mathlib

/-!
PSP2 (Vita) back end of SDL 1.2: audio driver, semaphores, delay

Shallow embedding of

* `src/audio/psp2/SDL_psp2audio.c` and `SDL_psp2audio.h` (double-buffered audio output),
* `src/thread/psp2/SDL_syssem.c` (counting semaphore on top of the kernel semaphore),
* `src/timer/psp2/SDL_systimer.c` (`SDL_Delay`).

Conventions.  Unsigned C values are `Nat`, reduced with `% 2 ^ w` wherever the C type
truncates; signed `int` values are `Int`.  A pointer is the address it holds, as a `Nat`,
and `NULL` is `0`.  Calls that leave the translation unit (allocator, audio hardware,
kernel) are recorded in a trace, and what they answer is an argument of the embedded
function (audio) or a field of a kernel interface (semaphores).
-/

namespace SDLPsp2

/-! ## Machine integers -/

/-- Conversion of an integer value to `Uint32` / `unsigned int` / `size_t` (32-bit ARM). -/
def toUint32 (x : Int) : Nat := (x % 2 ^ 32).toNat

/-- Conversion of an integer value to a 32-bit two's complement `int`. -/
def toInt32 (x : Int) : Int := (x + 2 ^ 31) % 2 ^ 32 - 2 ^ 31

/-! ## Audio driver: constants and macros (`SDL_psp2audio.h`, `SDL_psp2audio.c`) -/

/-- The macro `NUM_BUFFERS` of `SDL_psp2audio.h`. -/
abbrev NUM_BUFFERS : Nat := 2

/-- The macro `SDL_AUDIO_MASK_BITSIZE`. -/
def SDL_AUDIO_MASK_BITSIZE : Nat := 0xFF

/-- The macro `SDL_AUDIO_BITSIZE(x)`, `(x & SDL_AUDIO_MASK_BITSIZE)`. -/
def SDL_AUDIO_BITSIZE (x : Nat) : Nat := x &&& SDL_AUDIO_MASK_BITSIZE

/-- The macro `SCE_AUDIO_SAMPLE_ALIGN(s)`, `(((s) + 63) & ~63)`, evaluated in `int`
as C does after integer promotion of its `Uint16` argument: `(s) + 63` is a non-negative
`int` and `~63` is the 32-bit pattern `0xFFFFFFC0`. -/
def SCE_AUDIO_SAMPLE_ALIGN (s : Nat) : Nat := (s + 63) &&& 0xFFFFFFC0

/-- The macro `SCE_AUDIO_MAX_VOLUME`. -/
def SCE_AUDIO_MAX_VOLUME : Int := 0x8000

/-- The format code `AUDIO_U8` of `SDL_audio.h` (a header outside the sources at hand):
unsigned 8-bit samples. -/
def AUDIO_U8 : Nat := 0x0008

/-- The format code `AUDIO_S16LSB` of `SDL_audio.h`: signed 16-bit samples.  Used in
examples only. -/
def AUDIO_S16LSB : Nat := 0x8010

/-- The SDK constant `SCE_AUDIO_OUT_PORT_TYPE_MAIN`. -/
def SCE_AUDIO_OUT_PORT_TYPE_MAIN : Int := 0

/-- The SDK constant `SCE_AUDIO_OUT_MODE_MONO`. -/
def SCE_AUDIO_OUT_MODE_MONO : Int := 0

/-- The SDK constant `SCE_AUDIO_OUT_MODE_STEREO`. -/
def SCE_AUDIO_OUT_MODE_STEREO : Int := 1

/-- The SDK constant `SCE_AUDIO_VOLUME_FLAG_L_CH`. -/
def SCE_AUDIO_VOLUME_FLAG_L_CH : Nat := 1

/-- The SDK constant `SCE_AUDIO_VOLUME_FLAG_R_CH`. -/
def SCE_AUDIO_VOLUME_FLAG_R_CH : Nat := 2

/-! ## Audio driver: data -/

/-- The fields of `SDL_AudioSpec` the driver touches, with their C types:
`int freq`, `Uint16 format`, `Uint8 channels`, `Uint8 silence`, `Uint16 samples`,
`Uint32 size`. -/
structure SDL_AudioSpec where
  freq : Int
  format : Nat
  channels : Nat
  silence : Nat
  samples : Nat
  size : Nat
deriving DecidableEq, Repr

/-- The struct `SDL_PrivateAudioData` of `SDL_psp2audio.h`.  `mixbufs` holds the
`NUM_BUFFERS` slot pointers. -/
structure SDL_PrivateAudioData where
  channel : Int
  rawbuf : Nat
  mixbufs : Fin NUM_BUFFERS → Nat
  next_buffer : Int
deriving DecidableEq

/-- The part of `SDL_AudioDevice` the driver uses: `this->spec` and `*this->hidden`. -/
structure SDL_AudioDevice where
  spec : SDL_AudioSpec
  hidden : SDL_PrivateAudioData
deriving DecidableEq

/-- A call that leaves the audio driver, with its arguments (and, where the driver uses
it, its result). -/
inductive HwCall where
  | memalign (alignment size result : Nat)
  | free (ptr : Nat)
  | memset (ptr value len : Nat)
  | sceAudioOutOpenPort (portType : Int) (len : Nat) (freq : Int) (mode : Int) (result : Int)
  | sceAudioOutReleasePort (port : Int)
  | sceAudioOutSetVolume (port : Int) (flags : Nat) (vols : List Int)
  | sceAudioOutOutput (port : Int) (buf : Option Nat)
deriving DecidableEq, Repr

/-- State the audio driver works on: the device, the SDL error message (what the last
`SDL_SetError` left), the trace of outside calls (oldest first) and the bytes of memory. -/
structure AudioState where
  dev : SDL_AudioDevice
  error : Option String
  calls : List HwCall
  mem : Nat → Nat

/-- Record an outside call. -/
def AudioState.call (s : AudioState) (c : HwCall) : AudioState :=
  { s with calls := s.calls ++ [c] }

/-- The function `SDL_SetError(msg)`: the message becomes the current SDL error. -/
def AudioState.setError (s : AudioState) (msg : String) : AudioState :=
  { s with error := some msg }

/-- Replace the private data `*this->hidden`. -/
def AudioState.setHidden (s : AudioState) (h : SDL_PrivateAudioData) : AudioState :=
  { s with dev := { s.dev with hidden := h } }

/-- Replace `this->spec`. -/
def AudioState.setSpec (s : AudioState) (sp : SDL_AudioSpec) : AudioState :=
  { s with dev := { s.dev with spec := sp } }

/-- The read `mixbufs[i]` for an `int` index; `none` when the index is outside the
array of `NUM_BUFFERS` pointers (undefined in C). -/
def mixbufAt (h : SDL_PrivateAudioData) (i : Int) : Option Nat :=
  if hi : 0 ≤ i ∧ i.toNat < NUM_BUFFERS then some (h.mixbufs ⟨i.toNat, hi.2⟩) else none

/-! ## Audio driver: functions -/

/-- A device as `SDL_memset(…, 0, …)` leaves it: every integer `0`, every pointer `NULL`. -/
def zeroedDevice : SDL_AudioDevice :=
  { spec := { freq := 0, format := 0, channels := 0, silence := 0, samples := 0, size := 0 }
    hidden := { channel := 0, rawbuf := 0, mixbufs := fun _ => 0, next_buffer := 0 } }

/-- The function `PSP2AUD_CreateDevice`.  `mallocThis` and `mallocHidden` tell whether
the two `SDL_malloc` calls succeed.  On success both `*this` and `*this->hidden` have
been cleared with `SDL_memset(…, 0, …)`: every integer is `0`, every pointer `NULL`. -/
def PSP2AUD_CreateDevice (_devindex : Int) (mallocThis mallocHidden : Bool) :
    Option SDL_AudioDevice :=
  if mallocThis = false ∨ mallocHidden = false then
    none
  else
    some zeroedDevice

/-- The function `PSP2AUD_GetAudioBuf`: `return this->hidden->mixbufs[this->hidden->next_buffer]`.
The state is returned beside the pointer to show that the call leaves it alone. -/
def PSP2AUD_GetAudioBuf (s : AudioState) : AudioState × Option Nat :=
  (s, mixbufAt s.dev.hidden s.dev.hidden.next_buffer)

/-- The function `PSP2AUD_PlayAudio`. -/
def PSP2AUD_PlayAudio (s : AudioState) : AudioState :=
  let mixbuf := mixbufAt s.dev.hidden s.dev.hidden.next_buffer
  let vols : List Int := [SCE_AUDIO_MAX_VOLUME, SCE_AUDIO_MAX_VOLUME]
  let s1 := s.call (HwCall.sceAudioOutSetVolume s.dev.hidden.channel
    (SCE_AUDIO_VOLUME_FLAG_L_CH ||| SCE_AUDIO_VOLUME_FLAG_R_CH) vols)
  let s2 := s1.call (HwCall.sceAudioOutOutput s1.dev.hidden.channel mixbuf)
  s2.setHidden { s2.dev.hidden with
    next_buffer := Int.tmod (toInt32 (s2.dev.hidden.next_buffer + 1)) NUM_BUFFERS }

/-- The function `PSP2AUD_CloseAudio`. -/
def PSP2AUD_CloseAudio (s : AudioState) : AudioState :=
  let s1 :=
    if 0 ≤ s.dev.hidden.channel then
      (s.call (HwCall.sceAudioOutReleasePort s.dev.hidden.channel)).setHidden
        { s.dev.hidden with channel := -1 }
    else s
  if s1.dev.hidden.rawbuf ≠ 0 then
    (s1.call (HwCall.free s1.dev.hidden.rawbuf)).setHidden { s1.dev.hidden with rawbuf := 0 }
  else s1

/-- The loop `for (i = 0; i < NUM_BUFFERS; i++) mixbufs[i] = &rawbuf[i * this->spec.size];`
of `PSP2AUD_OpenAudio`.  The index `i * size` is computed in `Uint32`. -/
def setMixbufs (rawbuf size : Nat) (mixbufs : Fin NUM_BUFFERS → Nat) : Fin NUM_BUFFERS → Nat :=
  (List.finRange NUM_BUFFERS).foldl
    (fun bufs i => Function.update bufs i (rawbuf + (i.val * size) % 2 ^ 32)) mixbufs

/-- The function `PSP2AUD_OpenAudio`.  `memalignRes` is the pointer `memalign(64, mixlen)`
answers (`0` for `NULL`) and `openPortRes` the value `sceAudioOutOpenPort` answers; the
second is consulted only if the port is requested.  The parameter `spec` of the C
function is not used by its body. -/
def PSP2AUD_OpenAudio (s : AudioState) (memalignRes : Nat) (openPortRes : Int) :
    AudioState × Int :=
  -- this->spec.samples = SCE_AUDIO_SAMPLE_ALIGN(this->spec.samples); (stored in a Uint16)
  -- this->spec.freq = 48000;
  let sp0 := s.dev.spec
  let sp1 := { sp0 with samples := (SCE_AUDIO_SAMPLE_ALIGN sp0.samples) % 2 ^ 16, freq := 48000 }
  -- switch (this->spec.format)
  let sp2 := { sp1 with silence := if sp1.format = AUDIO_U8 then 0x80 else 0x00 }
  -- this->spec.size = …; this->spec.size *= channels; this->spec.size *= samples;
  let sp3 := { sp2 with size := (SDL_AUDIO_BITSIZE sp2.format / 8) % 2 ^ 32 }
  let sp4 := { sp3 with size := (sp3.size * sp3.channels) % 2 ^ 32 }
  let sp5 := { sp4 with size := (sp4.size * sp4.samples) % 2 ^ 32 }
  let s1 := s.setSpec sp5
  -- mixlen = this->spec.size * NUM_BUFFERS;
  let mixlen : Int := toInt32 ((sp5.size * NUM_BUFFERS) % 2 ^ 32 : Nat)
  -- this->hidden->rawbuf = (Uint8 *) memalign(64, mixlen);
  let s2 := (s1.call (HwCall.memalign 64 (toUint32 mixlen) memalignRes)).setHidden
    { s1.dev.hidden with rawbuf := memalignRes }
  if s2.dev.hidden.rawbuf = 0 then
    (s2.setError "Couldn't allocate mixing buffer", -1)
  else
    let format : Int :=
      if s2.dev.spec.channels = 1 then SCE_AUDIO_OUT_MODE_MONO else SCE_AUDIO_OUT_MODE_STEREO
    let s3 := (s2.call (HwCall.sceAudioOutOpenPort SCE_AUDIO_OUT_PORT_TYPE_MAIN
      s2.dev.spec.samples s2.dev.spec.freq format openPortRes)).setHidden
      { s2.dev.hidden with channel := openPortRes }
    if s3.dev.hidden.channel < 0 then
      let s4 := (s3.call (HwCall.free s3.dev.hidden.rawbuf)).setHidden
        { s3.dev.hidden with rawbuf := 0 }
      (s4.setError "Couldn't reserve hardware channel", -1)
    else
      -- memset(this->hidden->rawbuf, 0, mixlen);
      let s4 : AudioState :=
        { s3.call (HwCall.memset s3.dev.hidden.rawbuf 0 (toUint32 mixlen)) with
          mem := fun a =>
            if s3.dev.hidden.rawbuf ≤ a ∧ a < s3.dev.hidden.rawbuf + toUint32 mixlen then 0
            else s3.mem a }
      let s5 := s4.setHidden { s4.dev.hidden with
        mixbufs := setMixbufs s4.dev.hidden.rawbuf s4.dev.spec.size s4.dev.hidden.mixbufs }
      (s5.setHidden { s5.dev.hidden with next_buffer := 0 }, 0)

/-- The state around a device: no error set, no outside call made yet, memory all zero. -/
def AudioState.around (d : SDL_AudioDevice) : AudioState :=
  { dev := d, error := none, calls := [], mem := fun _ => 0 }

/-- A device just created whose `spec` holds what the caller asks for. -/
def AudioState.request (freq : Int) (format channels samples : Nat) : AudioState :=
  AudioState.around
    { zeroedDevice with
      spec := { zeroedDevice.spec with
        freq := freq, format := format, channels := channels, samples := samples } }

/-- One call of the driver by its user; an `openAudio` carries what the allocator and
the hardware answer to it. -/
inductive AudioOp where
  | openAudio (memalignRes : Nat) (openPortRes : Int)
  | playAudio
  | getAudioBuf
  | closeAudio
deriving DecidableEq, Repr

/-- Effect of one driver call on the state. -/
def AudioOp.step (s : AudioState) : AudioOp → AudioState
  | AudioOp.openAudio memalignRes openPortRes => (PSP2AUD_OpenAudio s memalignRes openPortRes).1
  | AudioOp.playAudio => PSP2AUD_PlayAudio s
  | AudioOp.getAudioBuf => (PSP2AUD_GetAudioBuf s).1
  | AudioOp.closeAudio => PSP2AUD_CloseAudio s

/-- Effect of a sequence of driver calls, first call first. -/
def runOps (s : AudioState) (ops : List AudioOp) : AudioState :=
  ops.foldl AudioOp.step s

/-- The coupling of the two resources: the channel handle is valid (`channel >= 0`)
exactly when the ring allocation is (`rawbuf != NULL`). -/
def Coupled (s : AudioState) : Prop :=
  0 ≤ s.dev.hidden.channel ↔ s.dev.hidden.rawbuf ≠ 0

instance (s : AudioState) : Decidable (Coupled s) := by
  unfold Coupled; infer_instance

/-- Effect of one outside call on the hardware ports held: a `sceAudioOutOpenPort` that
answers a handle `>= 0` adds it, a `sceAudioOutReleasePort` removes the port it names (if
it is held), every other call leaves the ports alone. -/
def heldStep (held : List Int) : HwCall → List Int
  | HwCall.sceAudioOutOpenPort _ _ _ _ result => if 0 ≤ result then held ++ [result] else held
  | HwCall.sceAudioOutReleasePort port => held.erase port
  | _ => held

/-- The hardware ports obtained from `sceAudioOutOpenPort` and not yet released by
`sceAudioOutReleasePort`, after the calls of a trace made with `held` ports in hand. -/
def heldPortsFrom (held : List Int) (calls : List HwCall) : List Int :=
  calls.foldl heldStep held

/-- The hardware ports held after a trace that starts with none. -/
def heldPorts (calls : List HwCall) : List Int :=
  heldPortsFrom [] calls

/-- The calling discipline of a driver user: once a `PSP2AUD_OpenAudio` has succeeded
(`isOpen`), `PSP2AUD_OpenAudio` is not called again before `PSP2AUD_CloseAudio`. -/
def noReopen (isOpen : Bool) : List AudioOp → Bool
  | [] => true
  | AudioOp.openAudio memalignRes openPortRes :: ops =>
      !isOpen && noReopen (decide (memalignRes ≠ 0 ∧ 0 ≤ openPortRes)) ops
  | AudioOp.closeAudio :: ops => noReopen false ops
  | AudioOp.playAudio :: ops => noReopen isOpen ops
  | AudioOp.getAudioBuf :: ops => noReopen isOpen ops

/-- The invariant of a disciplined run: no port is held, or a successful open is pending
(`isOpen`) and the one port held is the device's channel. -/
def PortInv (isOpen : Bool) (s : AudioState) : Prop :=
  heldPorts s.calls = [] ∨
    (isOpen = true ∧ 0 ≤ s.dev.hidden.channel ∧ heldPorts s.calls = [s.dev.hidden.channel])

/-! ## Semaphores: constants and data (`SDL_syssem.c`) -/

/-- The constant `SDL_MUTEX_TIMEDOUT` of `SDL_mutex.h`. -/
def SDL_MUTEX_TIMEDOUT : Int := 1

/-- The constant `SDL_MUTEX_MAXWAIT` of `SDL_mutex.h`, `(~(Uint32)0)`. -/
def SDL_MUTEX_MAXWAIT : Nat := 2 ^ 32 - 1

/-- The SDK result code `SCE_KERNEL_OK`, as the `unsigned int` the wait compares. -/
def SCE_KERNEL_OK : Nat := 0

/-- The SDK result code `SCE_KERNEL_ERROR_WAIT_TIMEOUT`, as the `unsigned int` the wait
compares. -/
def SCE_KERNEL_ERROR_WAIT_TIMEOUT : Nat := 0x80028005

/-- The struct `SDL_semaphore`: the kernel identifier `SceUID semid`.  A `SDL_sem *` is
an `Option SDL_sem`, `none` for `NULL`. -/
structure SDL_sem where
  semid : Int
deriving DecidableEq, Repr

/-- A call that leaves `SDL_syssem.c`, with its arguments.  `pTimeout` is `none` for a
`NULL` pointer and otherwise the microseconds it points to. -/
inductive SemCall where
  | SDL_malloc (ok : Bool)
  | free
  | sceKernelCreateSema (name : String) (attr : Nat) (initVal maxVal : Int) (option : Nat)
  | sceKernelDeleteSema (semid : Int)
  | sceKernelPollSema (semid : Int) (needCount : Int)
  | sceKernelWaitSema (semid : Int) (needCount : Int) (pTimeout : Option Nat)
  | sceKernelSignalSema (semid : Int) (signalCount : Int)
  | sceKernelGetSemaInfo (semid : Int)
deriving DecidableEq, Repr

/-- The kernel as the semaphore code sees it: a state `κ` and what each kernel call does
to it and answers.  `sceKernelWaitSema` answers `none` when the calling thread stays
blocked for ever; `sceKernelGetSemaInfo` answers its result and `info.currentCount`. -/
structure KernelOps (κ : Type) where
  sceKernelCreateSema : κ → String → Nat → Int → Int → Nat → κ × Int
  sceKernelDeleteSema : κ → Int → κ × Int
  sceKernelPollSema : κ → Int → Int → κ × Int
  sceKernelWaitSema : κ → Int → Int → Option Nat → κ × Option Int
  sceKernelSignalSema : κ → Int → Int → κ × Int
  sceKernelGetSemaInfo : κ → Int → κ × Int × Int

/-- State the semaphore code works on: the kernel, the SDL error message and the trace
of outside calls (oldest first). -/
structure SemState (κ : Type) where
  kernel : κ
  error : Option String
  calls : List SemCall

/-- The function `SDL_SetError(msg)` on a semaphore state. -/
def SemState.setError {κ : Type} (s : SemState κ) (msg : String) : SemState κ :=
  { s with error := some msg }

/-- Record an outside call and the kernel state it leaves. -/
def SemState.call {κ : Type} (s : SemState κ) (c : SemCall) (k : κ) : SemState κ :=
  { s with kernel := k, calls := s.calls ++ [c] }

/-! ## Semaphores: functions -/

/-- The function `SDL_CreateSemaphore`.  `mallocOk` tells whether `SDL_malloc` succeeds.
The `Uint32` argument is handed to the kernel as an `int`. -/
def SDL_CreateSemaphore {κ : Type} (K : KernelOps κ) (s : SemState κ) (initial_value : Nat)
    (mallocOk : Bool) : SemState κ × Option SDL_sem :=
  let s1 := s.call (SemCall.SDL_malloc mallocOk) s.kernel
  if mallocOk = false then
    -- SDL_OutOfMemory()
    (s1.setError "Out of memory", none)
  else
    let r := K.sceKernelCreateSema s1.kernel "SDL sema" 0 (toInt32 initial_value) 255 0
    let s2 := s1.call (SemCall.sceKernelCreateSema "SDL sema" 0 (toInt32 initial_value) 255 0) r.1
    let sem : SDL_sem := { semid := r.2 }
    if sem.semid < 0 then
      ((s2.setError "Couldn't create semaphore").call SemCall.free s2.kernel, none)
    else
      (s2, some sem)

/-- The function `SDL_DestroySemaphore`. -/
def SDL_DestroySemaphore {κ : Type} (K : KernelOps κ) (s : SemState κ) (sem : Option SDL_sem) :
    SemState κ :=
  match sem with
  | none => s
  | some sm =>
    let s1 :=
      if 0 < sm.semid then
        s.call (SemCall.sceKernelDeleteSema sm.semid) (K.sceKernelDeleteSema s.kernel sm.semid).1
      else s
    s1.call SemCall.free s1.kernel

/-- The function `SDL_SemWaitTimeout`.  The result is `none` when the kernel wait never
returns.  `res` is an `unsigned int`, so the kernel result is reduced modulo `2 ^ 32`
before it is compared; `timeout` is a `Uint32`, so `timeout *= 1000` is too. -/
def SDL_SemWaitTimeout {κ : Type} (K : KernelOps κ) (s : SemState κ) (sem : Option SDL_sem)
    (timeout : Nat) : SemState κ × Option Int :=
  match sem with
  | none => (s.setError "Passed a NULL sem", some 0)
  | some sm =>
    if timeout = 0 then
      let r := K.sceKernelPollSema s.kernel sm.semid 1
      let s1 := s.call (SemCall.sceKernelPollSema sm.semid 1) r.1
      let res : Nat := toUint32 r.2
      if res < 0 then (s1, some SDL_MUTEX_TIMEDOUT) else (s1, some 0)
    else
      let pTimeout : Option Nat :=
        if timeout = SDL_MUTEX_MAXWAIT then none else some ((timeout * 1000) % 2 ^ 32)
      let r := K.sceKernelWaitSema s.kernel sm.semid 1 pTimeout
      let s1 := s.call (SemCall.sceKernelWaitSema sm.semid 1 pTimeout) r.1
      match r.2 with
      | none => (s1, none)
      | some v =>
        let res : Nat := toUint32 v
        if res = SCE_KERNEL_OK then (s1, some 0)
        else if res = SCE_KERNEL_ERROR_WAIT_TIMEOUT then (s1, some SDL_MUTEX_TIMEDOUT)
        else (s1.setError "WaitForSingleObject() failed", some (-1))

/-- The function `SDL_SemTryWait`. -/
def SDL_SemTryWait {κ : Type} (K : KernelOps κ) (s : SemState κ) (sem : Option SDL_sem) :
    SemState κ × Option Int :=
  SDL_SemWaitTimeout K s sem 0

/-- The function `SDL_SemWait`. -/
def SDL_SemWait {κ : Type} (K : KernelOps κ) (s : SemState κ) (sem : Option SDL_sem) :
    SemState κ × Option Int :=
  SDL_SemWaitTimeout K s sem SDL_MUTEX_MAXWAIT

/-- The function `SDL_SemValue`. -/
def SDL_SemValue {κ : Type} (K : KernelOps κ) (s : SemState κ) (sem : Option SDL_sem) :
    SemState κ × Nat :=
  match sem with
  | none => (s.setError "Passed a NULL sem", 0)
  | some sm =>
    let r := K.sceKernelGetSemaInfo s.kernel sm.semid
    let s1 := s.call (SemCall.sceKernelGetSemaInfo sm.semid) r.1
    if 0 ≤ r.2.1 then (s1, toUint32 r.2.2) else (s1, 0)

/-- The function `SDL_SemPost`. -/
def SDL_SemPost {κ : Type} (K : KernelOps κ) (s : SemState κ) (sem : Option SDL_sem) :
    SemState κ × Int :=
  match sem with
  | none => (s.setError "Passed a NULL sem", -1)
  | some sm =>
    let r := K.sceKernelSignalSema s.kernel sm.semid 1
    let s1 := s.call (SemCall.sceKernelSignalSema sm.semid 1) r.1
    let res : Int := r.2
    if res < 0 then (s1.setError "sceKernelSignalSema() failed", -1) else (s1, 0)

/-! ## A reference kernel

The kernel is not part of the repository.  For the statements that need the kernel to
behave like a counting semaphore, this is the behaviour taken for it, with one thread
and nobody else touching the semaphores: a semaphore is a count between `0` and the
maximum given at creation; poll and wait take `needCount` tokens if they are there;
poll fails at once if they are not, a wait with a timeout times out and a wait without
one never returns; signal adds tokens unless the maximum would be exceeded.  Of the
error codes only their being negative `int`s, and different from
`SCE_KERNEL_ERROR_WAIT_TIMEOUT`, is used. -/

/-- A kernel semaphore: its current and its maximum count. -/
structure KSema where
  currentCount : Int
  maxCount : Int
deriving DecidableEq, Repr

/-- The kernel semaphores in existence, by identifier, and the next identifier to give. -/
structure VitaKernel where
  semas : List (Int × KSema)
  nextUid : Int
deriving DecidableEq, Repr

/-- Kernel error: the identifier names no semaphore. -/
def SCE_KERNEL_ERROR_UNKNOWN_SEMA_ID : Int := toInt32 0x80028083

/-- Kernel error: a count argument is out of range. -/
def SCE_KERNEL_ERROR_ILLEGAL_COUNT : Int := toInt32 0x80028020

/-- Kernel error: a poll found too few tokens. -/
def SCE_KERNEL_ERROR_SEMA_ZERO : Int := toInt32 0x80028058

/-- Kernel error: a signal would exceed the maximum count. -/
def SCE_KERNEL_ERROR_SEMA_OVF : Int := toInt32 0x80028059

/-- Look a semaphore up by identifier. -/
def VitaKernel.find (k : VitaKernel) (semid : Int) : Option KSema :=
  (k.semas.find? (fun p => p.1 = semid)).map Prod.snd

/-- Replace the semaphore of the given identifier. -/
def VitaKernel.set (k : VitaKernel) (semid : Int) (v : KSema) : VitaKernel :=
  { k with semas := k.semas.map (fun p => if p.1 = semid then (p.1, v) else p) }

/-- The reference kernel. -/
def vitaKernel : KernelOps VitaKernel where
  sceKernelCreateSema := fun k _name _attr initVal maxVal _option =>
    if maxVal ≤ 0 ∨ initVal < 0 ∨ maxVal < initVal then (k, SCE_KERNEL_ERROR_ILLEGAL_COUNT)
    else
      ({ semas := (k.nextUid, { currentCount := initVal, maxCount := maxVal }) :: k.semas,
         nextUid := k.nextUid + 1 }, k.nextUid)
  sceKernelDeleteSema := fun k semid =>
    match k.find semid with
    | none => (k, SCE_KERNEL_ERROR_UNKNOWN_SEMA_ID)
    | some _ => ({ k with semas := k.semas.filter (fun p => p.1 ≠ semid) }, 0)
  sceKernelPollSema := fun k semid needCount =>
    match k.find semid with
    | none => (k, SCE_KERNEL_ERROR_UNKNOWN_SEMA_ID)
    | some v =>
      if needCount ≤ 0 ∨ v.maxCount < needCount then (k, SCE_KERNEL_ERROR_ILLEGAL_COUNT)
      else if needCount ≤ v.currentCount then
        (k.set semid { v with currentCount := v.currentCount - needCount }, 0)
      else (k, SCE_KERNEL_ERROR_SEMA_ZERO)
  sceKernelWaitSema := fun k semid needCount pTimeout =>
    match k.find semid with
    | none => (k, some SCE_KERNEL_ERROR_UNKNOWN_SEMA_ID)
    | some v =>
      if needCount ≤ 0 ∨ v.maxCount < needCount then (k, some SCE_KERNEL_ERROR_ILLEGAL_COUNT)
      else if needCount ≤ v.currentCount then
        (k.set semid { v with currentCount := v.currentCount - needCount }, some 0)
      else
        match pTimeout with
        | none => (k, none)
        | some _ => (k, some (toInt32 SCE_KERNEL_ERROR_WAIT_TIMEOUT))
  sceKernelSignalSema := fun k semid signalCount =>
    match k.find semid with
    | none => (k, SCE_KERNEL_ERROR_UNKNOWN_SEMA_ID)
    | some v =>
      if signalCount ≤ 0 then (k, SCE_KERNEL_ERROR_ILLEGAL_COUNT)
      else if v.maxCount < v.currentCount + signalCount then (k, SCE_KERNEL_ERROR_SEMA_OVF)
      else (k.set semid { v with currentCount := v.currentCount + signalCount }, 0)
  sceKernelGetSemaInfo := fun k semid =>
    match k.find semid with
    | none => (k, SCE_KERNEL_ERROR_UNKNOWN_SEMA_ID, 0)
    | some v => (k, 0, v.currentCount)

/-- A semaphore state with no semaphore, no error and no call made. -/
def SemState.start : SemState VitaKernel :=
  { kernel := { semas := [], nextUid := 1 }, error := none, calls := [] }

/-! ## Timer (`SDL_systimer.c`) -/

/-- The function `SDL_Delay`; the value is the argument it gives `sceKernelDelayThreadCB`,
a `Uint32` count of microseconds. -/
def SDL_Delay (ms : Nat) : Nat :=
  let max_delay : Nat := 0xffffffff / 1000
  let ms1 := if ms > max_delay then max_delay else ms
  (ms1 * 1000) % 2 ^ 32

/-! ## Lemmas on the audio driver -/

theorem and_align_mask (x : Nat) (hx : x < 2 ^ 32) : x &&& 0xFFFFFFC0 = x / 64 * 64 := by
  apply Nat.eq_of_testBit_eq
  intro k
  have hm : (0xFFFFFFC0 : Nat) = 2 ^ 6 * (2 ^ 26 - 1) := by norm_num
  have h64 : x / 64 * 64 = 2 ^ 6 * (x >>> 6) := by
    rw [Nat.shiftRight_eq_div_pow]; ring
  rw [Nat.testBit_and, h64, hm, Nat.testBit_mul_pow_two, Nat.testBit_mul_pow_two,
    Nat.testBit_shiftRight, Nat.testBit_two_pow_sub_one]
  by_cases hk : k < 6
  · have : ¬ 6 ≤ k := by omega
    simp [this]
  · have h6 : 6 + (k - 6) = k := by omega
    by_cases hk2 : k < 32
    · have : k - 6 < 26 := by omega
      have h6k : 6 ≤ k := by omega
      simp [h6, this, h6k]
    · have hlt : x < 2 ^ k := lt_of_lt_of_le hx (Nat.pow_le_pow_right (by norm_num) (by omega))
      have : x.testBit k = false := Nat.testBit_lt_two_pow hlt
      simp [h6, this]

theorem SCE_AUDIO_SAMPLE_ALIGN_eq (s : Nat) (hs : s < 2 ^ 16) :
    SCE_AUDIO_SAMPLE_ALIGN s = (s + 63) / 64 * 64 := by
  unfold SCE_AUDIO_SAMPLE_ALIGN
  exact and_align_mask (s + 63) (by omega)

theorem OpenAudio_samples (s : AudioState) (mr : Nat) (pr : Int) :
    (PSP2AUD_OpenAudio s mr pr).1.dev.spec.samples
      = (SCE_AUDIO_SAMPLE_ALIGN s.dev.spec.samples) % 2 ^ 16 := by
  unfold PSP2AUD_OpenAudio
  simp only [AudioState.setSpec, AudioState.setHidden, AudioState.call, AudioState.setError]
  split_ifs <;> rfl

theorem OpenAudio_samples_eq (s : AudioState) (mr : Nat) (pr : Int)
    (hs : s.dev.spec.samples < 2 ^ 16) :
    (PSP2AUD_OpenAudio s mr pr).1.dev.spec.samples
      = if s.dev.spec.samples ≤ 65472 then (s.dev.spec.samples + 63) / 64 * 64 else 0 := by
  rw [OpenAudio_samples, SCE_AUDIO_SAMPLE_ALIGN_eq _ hs]
  split_ifs with h <;> omega

theorem OpenAudio_result (s : AudioState) (mr : Nat) (pr : Int) :
    (PSP2AUD_OpenAudio s mr pr).2 = if mr ≠ 0 ∧ 0 ≤ pr then 0 else -1 := by
  unfold PSP2AUD_OpenAudio
  simp only [AudioState.setSpec, AudioState.setHidden, AudioState.call, AudioState.setError]
  split_ifs <;> first | rfl | omega

theorem OpenAudio_ok_iff (s : AudioState) (mr : Nat) (pr : Int) :
    (PSP2AUD_OpenAudio s mr pr).2 = 0 ↔ mr ≠ 0 ∧ 0 ≤ pr := by
  rw [OpenAudio_result]
  split_ifs with h
  · simp [h]
  · simp [h]

theorem OpenAudio_size_lt (s : AudioState) (mr : Nat) (pr : Int) :
    (PSP2AUD_OpenAudio s mr pr).1.dev.spec.size < 2 ^ 32 := by
  unfold PSP2AUD_OpenAudio
  simp only [AudioState.setSpec, AudioState.setHidden, AudioState.call, AudioState.setError]
  split_ifs <;> exact Nat.mod_lt _ (by norm_num)

theorem setMixbufs_apply (rawbuf size : Nat) (m : Fin NUM_BUFFERS → Nat) (i : Fin NUM_BUFFERS) :
    setMixbufs rawbuf size m i = rawbuf + (i.val * size) % 2 ^ 32 := by
  have h : List.finRange NUM_BUFFERS = [(0 : Fin 2), 1] := by decide
  unfold setMixbufs
  rw [h]
  fin_cases i <;> simp [Function.update]

theorem OpenAudio_hidden (s : AudioState) (mr : Nat) (pr : Int) (hm : mr ≠ 0) (hp : 0 ≤ pr) :
    (PSP2AUD_OpenAudio s mr pr).1.dev.hidden =
      { channel := pr, rawbuf := mr,
        mixbufs := setMixbufs mr (PSP2AUD_OpenAudio s mr pr).1.dev.spec.size s.dev.hidden.mixbufs,
        next_buffer := 0 } := by
  unfold PSP2AUD_OpenAudio
  simp only [AudioState.setSpec, AudioState.setHidden, AudioState.call, AudioState.setError]
  rw [if_neg hm, if_neg (not_lt.mpr hp)]

theorem PlayAudio_mixbufs (s : AudioState) :
    (PSP2AUD_PlayAudio s).dev.hidden.mixbufs = s.dev.hidden.mixbufs := rfl

theorem PlayAudio_channel (s : AudioState) :
    (PSP2AUD_PlayAudio s).dev.hidden.channel = s.dev.hidden.channel := rfl

theorem PlayAudio_next_buffer (s : AudioState) :
    (PSP2AUD_PlayAudio s).dev.hidden.next_buffer
      = Int.tmod (toInt32 (s.dev.hidden.next_buffer + 1)) NUM_BUFFERS := rfl

theorem PlayAudio_calls (s : AudioState) :
    (PSP2AUD_PlayAudio s).calls = s.calls ++
      [HwCall.sceAudioOutSetVolume s.dev.hidden.channel
          (SCE_AUDIO_VOLUME_FLAG_L_CH ||| SCE_AUDIO_VOLUME_FLAG_R_CH)
          [SCE_AUDIO_MAX_VOLUME, SCE_AUDIO_MAX_VOLUME],
       HwCall.sceAudioOutOutput s.dev.hidden.channel
          (mixbufAt s.dev.hidden s.dev.hidden.next_buffer)] := by
  simp [PSP2AUD_PlayAudio, AudioState.call, AudioState.setHidden]

theorem iterate_PlayAudio_mixbufs (s : AudioState) (k : Nat) :
    (PSP2AUD_PlayAudio^[k] s).dev.hidden.mixbufs = s.dev.hidden.mixbufs := by
  induction k with
  | zero => rfl
  | succ n ih => rw [Function.iterate_succ_apply', PlayAudio_mixbufs, ih]

theorem iterate_PlayAudio_channel (s : AudioState) (k : Nat) :
    (PSP2AUD_PlayAudio^[k] s).dev.hidden.channel = s.dev.hidden.channel := by
  induction k with
  | zero => rfl
  | succ n ih => rw [Function.iterate_succ_apply', PlayAudio_channel, ih]

theorem next_buffer_step (n : Nat) :
    Int.tmod (toInt32 (((n % 2 : Nat) : Int) + 1)) NUM_BUFFERS = (((n + 1) % 2 : Nat) : Int) := by
  rcases Nat.mod_two_eq_zero_or_one n with h | h
  · have h1 : (n + 1) % 2 = 1 := by omega
    rw [h, h1]; decide
  · have h1 : (n + 1) % 2 = 0 := by omega
    rw [h, h1]; decide

theorem iterate_PlayAudio_next_buffer (s : AudioState) (k : Nat)
    (h0 : s.dev.hidden.next_buffer = 0) :
    (PSP2AUD_PlayAudio^[k] s).dev.hidden.next_buffer = ((k % 2 : Nat) : Int) := by
  induction k with
  | zero => simpa using h0
  | succ n ih => rw [Function.iterate_succ_apply', PlayAudio_next_buffer, ih, next_buffer_step]

theorem mixbufAt_ofNat (h : SDL_PrivateAudioData) (i : Nat) (hi : i < NUM_BUFFERS) :
    mixbufAt h (i : Int) = some (h.mixbufs ⟨i, hi⟩) := by
  unfold mixbufAt
  rw [dif_pos ⟨Int.ofNat_nonneg i, by simpa using hi⟩]
  simp

theorem OpenAudio_calls (s : AudioState) (mr : Nat) (pr : Int) :
    (PSP2AUD_OpenAudio s mr pr).1.calls = s.calls ++
      (if mr = 0 then
        [HwCall.memalign 64
          (toUint32 (toInt32
            (((PSP2AUD_OpenAudio s mr pr).1.dev.spec.size * NUM_BUFFERS) % 2 ^ 32 : Nat))) 0]
      else
        [HwCall.memalign 64
          (toUint32 (toInt32
            (((PSP2AUD_OpenAudio s mr pr).1.dev.spec.size * NUM_BUFFERS) % 2 ^ 32 : Nat))) mr,
         HwCall.sceAudioOutOpenPort SCE_AUDIO_OUT_PORT_TYPE_MAIN
          (PSP2AUD_OpenAudio s mr pr).1.dev.spec.samples 48000
          (if s.dev.spec.channels = 1 then SCE_AUDIO_OUT_MODE_MONO
            else SCE_AUDIO_OUT_MODE_STEREO) pr,
         if pr < 0 then HwCall.free mr
         else HwCall.memset mr 0
          (toUint32 (toInt32
            (((PSP2AUD_OpenAudio s mr pr).1.dev.spec.size * NUM_BUFFERS) % 2 ^ 32 : Nat)))]) := by
  by_cases hm : mr = 0
  · subst hm
    unfold PSP2AUD_OpenAudio
    simp only [AudioState.setSpec, AudioState.setHidden, AudioState.call, AudioState.setError]
    split_ifs <;>
      simp only [List.append_assoc, List.singleton_append, List.cons_append, List.nil_append]
  · unfold PSP2AUD_OpenAudio
    simp only [AudioState.setSpec, AudioState.setHidden, AudioState.call, AudioState.setError]
    split_ifs <;>
      simp only [List.append_assoc, List.singleton_append, List.cons_append, List.nil_append]

theorem OpenAudio_failed_hidden (s : AudioState) (mr : Nat) (pr : Int)
    (h : mr = 0 ∨ pr < 0) :
    (PSP2AUD_OpenAudio s mr pr).1.dev.hidden =
      { s.dev.hidden with
        rawbuf := 0, channel := if mr = 0 then s.dev.hidden.channel else pr } := by
  unfold PSP2AUD_OpenAudio
  simp only [AudioState.setSpec, AudioState.setHidden, AudioState.call, AudioState.setError]
  by_cases hm : mr = 0
  · subst hm; simp
  · have hp : pr < 0 := by
      rcases h with h | h
      · exact absurd h hm
      · exact h
    rw [if_neg hm, if_pos hp, if_neg hm]

theorem OpenAudio_error (s : AudioState) (mr : Nat) (pr : Int) :
    (PSP2AUD_OpenAudio s mr pr).1.error =
      if mr = 0 then some "Couldn't allocate mixing buffer"
      else if pr < 0 then some "Couldn't reserve hardware channel"
      else s.error := by
  unfold PSP2AUD_OpenAudio
  simp only [AudioState.setSpec, AudioState.setHidden, AudioState.call, AudioState.setError]
  split_ifs <;> rfl

/-! ## Lemmas on the semaphores -/

theorem SemWaitTimeout_poll {κ : Type} (K : KernelOps κ) (s : SemState κ) (sem : SDL_sem) :
    SDL_SemWaitTimeout K s (some sem) 0 =
      (s.call (SemCall.sceKernelPollSema sem.semid 1) (K.sceKernelPollSema s.kernel sem.semid 1).1,
        some 0) := by
  simp [SDL_SemWaitTimeout]

theorem SemWaitTimeout_calls {κ : Type} (K : KernelOps κ) (s : SemState κ) (sem : SDL_sem)
    (t : Nat) (ht : t ≠ 0) :
    (SDL_SemWaitTimeout K s (some sem) t).1.calls = s.calls ++
      [SemCall.sceKernelWaitSema sem.semid 1
        (if t = SDL_MUTEX_MAXWAIT then none else some ((t * 1000) % 2 ^ 32))] := by
  unfold SDL_SemWaitTimeout
  simp only [if_neg ht]
  split
  · rfl
  · split_ifs <;> rfl

theorem VitaKernel.find_set (k : VitaKernel) (semid : Int) (v w : KSema)
    (h : k.find semid = some v) : (k.set semid w).find semid = some w := by
  obtain ⟨semas, nextUid⟩ := k
  unfold VitaKernel.find VitaKernel.set at *
  simp only at h ⊢
  induction semas with
  | nil => simp at h
  | cons p rest ih =>
    by_cases hp : p.1 = semid
    · simp [List.find?, hp]
    · rw [List.find?_cons_of_neg _ (by simpa using hp)] at h
      rw [List.map_cons, if_neg hp, List.find?_cons_of_neg _ (by simpa using hp)]
      exact ih h

theorem vitaKernel_signal_ok (k : VitaKernel) (semid : Int) (v : KSema)
    (h : k.find semid = some v) (hlt : v.currentCount < v.maxCount) :
    vitaKernel.sceKernelSignalSema k semid 1
      = (k.set semid { v with currentCount := v.currentCount + 1 }, 0) := by
  have h1 : ¬ v.maxCount < v.currentCount + 1 := by omega
  simp [vitaKernel, h, h1]

theorem vitaKernel_signal_full (k : VitaKernel) (semid : Int) (v : KSema)
    (h : k.find semid = some v) (hfull : v.currentCount = v.maxCount) :
    vitaKernel.sceKernelSignalSema k semid 1 = (k, SCE_KERNEL_ERROR_SEMA_OVF) := by
  have h1 : v.maxCount < v.currentCount + 1 := by omega
  simp [vitaKernel, h, h1]

theorem vitaKernel_wait_ok (k : VitaKernel) (semid : Int) (v : KSema) (pTimeout : Option Nat)
    (h : k.find semid = some v) (h1 : 1 ≤ v.currentCount) (hmax : 1 ≤ v.maxCount) :
    vitaKernel.sceKernelWaitSema k semid 1 pTimeout
      = (k.set semid { v with currentCount := v.currentCount - 1 }, some 0) := by
  have h2 : ¬ v.maxCount < 1 := by omega
  simp [vitaKernel, h, h1, h2]

theorem vitaKernel_getInfo (k : VitaKernel) (semid : Int) (v : KSema)
    (h : k.find semid = some v) :
    vitaKernel.sceKernelGetSemaInfo k semid = (k, 0, v.currentCount) := by
  simp [vitaKernel, h]

theorem SemValue_vitaKernel (s : SemState VitaKernel) (sem : SDL_sem) (v : KSema)
    (h : s.kernel.find sem.semid = some v) :
    (SDL_SemValue vitaKernel s (some sem)).2 = toUint32 v.currentCount := by
  simp [SDL_SemValue, vitaKernel_getInfo _ _ _ h]

/-! ## The claims on the audio ring -/

/-- C2: the claim asks that the stored sample count is a multiple of 64 and at least the
requested count for every 16-bit request.  For a request of 65535 samples the aligned
value 65536 does not fit the `Uint16` field: the count stored by `PSP2AUD_OpenAudio` is 0,
a multiple of 64 that is below the request; this holds whatever the allocator and the
hardware answer. -/
theorem C2_requested_65535_stored_0 (s : AudioState) (memalignRes : Nat) (openPortRes : Int) :
    SCE_AUDIO_SAMPLE_ALIGN 65535 = 65536 ∧
    (PSP2AUD_OpenAudio (s.setSpec { s.dev.spec with samples := 65535 })
        memalignRes openPortRes).1.dev.spec.samples = 0 ∧
    ¬ (65535 ≤ (PSP2AUD_OpenAudio (s.setSpec { s.dev.spec with samples := 65535 })
        memalignRes openPortRes).1.dev.spec.samples) := by
  have h : (PSP2AUD_OpenAudio (s.setSpec { s.dev.spec with samples := 65535 })
      memalignRes openPortRes).1.dev.spec.samples = 0 := by
    rw [OpenAudio_samples]
    show SCE_AUDIO_SAMPLE_ALIGN 65535 % 2 ^ 16 = 0
    decide
  refine ⟨by decide, h, ?_⟩
  rw [h]
  decide

/-- C3, as the claim states it, fails: a request of 0 samples (16-bit stereo), and
likewise a 4-bit format code with 64 samples, opens with a slot size of 0 bytes, both
slot pointers are the allocation address 4096, and the pointer `PSP2AUD_GetAudioBuf`
returns after the first `PSP2AUD_PlayAudio` is the address that call gave
`sceAudioOutOutput`. -/
theorem C3_counterexample_zero_size :
    ((PSP2AUD_OpenAudio (AudioState.request 44100 AUDIO_S16LSB 2 0) 4096 3).2 = 0 ∧
      (PSP2AUD_PlayAudio
        (PSP2AUD_OpenAudio (AudioState.request 44100 AUDIO_S16LSB 2 0) 4096 3).1).calls.getLast?
        = some (HwCall.sceAudioOutOutput 3 (some 4096)) ∧
      (PSP2AUD_GetAudioBuf (PSP2AUD_PlayAudio
        (PSP2AUD_OpenAudio (AudioState.request 44100 AUDIO_S16LSB 2 0) 4096 3).1)).2
        = some 4096) ∧
    ((PSP2AUD_OpenAudio (AudioState.request 44100 0x0004 2 64) 4096 3).2 = 0 ∧
      (PSP2AUD_PlayAudio
        (PSP2AUD_OpenAudio (AudioState.request 44100 0x0004 2 64) 4096 3).1).calls.getLast?
        = some (HwCall.sceAudioOutOutput 3 (some 4096)) ∧
      (PSP2AUD_GetAudioBuf (PSP2AUD_PlayAudio
        (PSP2AUD_OpenAudio (AudioState.request 44100 0x0004 2 64) 4096 3).1)).2
        = some 4096) := by
  decide

/-- C3, amended: after a successful `PSP2AUD_OpenAudio` that stored a slot size
`spec.size` other than 0, and any number `k` of `PSP2AUD_PlayAudio` calls, one more
`PSP2AUD_PlayAudio` gives `sceAudioOutOutput` a slot address `p` (its last outside call),
`PSP2AUD_GetAudioBuf` right after it returns a slot address `q`, and `p ≠ q`. -/
theorem C3_next_buffer_differs (s : AudioState) (memalignRes : Nat) (openPortRes : Int)
    (k : Nat)
    (hok : (PSP2AUD_OpenAudio s memalignRes openPortRes).2 = 0)
    (hsize : (PSP2AUD_OpenAudio s memalignRes openPortRes).1.dev.spec.size ≠ 0) :
    ∃ p q : Nat,
      (PSP2AUD_PlayAudio
        (PSP2AUD_PlayAudio^[k] (PSP2AUD_OpenAudio s memalignRes openPortRes).1)).calls.getLast?
        = some (HwCall.sceAudioOutOutput openPortRes (some p)) ∧
      (PSP2AUD_GetAudioBuf (PSP2AUD_PlayAudio
        (PSP2AUD_PlayAudio^[k] (PSP2AUD_OpenAudio s memalignRes openPortRes).1))).2 = some q ∧
      p ≠ q := by
  obtain ⟨hm, hp⟩ := (OpenAudio_ok_iff s memalignRes openPortRes).mp hok
  have hh := OpenAudio_hidden s memalignRes openPortRes hm hp
  have hlt := OpenAudio_size_lt s memalignRes openPortRes
  generalize (PSP2AUD_OpenAudio s memalignRes openPortRes).1 = o at hh hlt hsize ⊢
  have hnb0 : o.dev.hidden.next_buffer = 0 := by rw [hh]
  have hnb := iterate_PlayAudio_next_buffer o k hnb0
  have hnb1 := iterate_PlayAudio_next_buffer o (k + 1) hnb0
  rw [Function.iterate_succ_apply'] at hnb1
  have hch : (PSP2AUD_PlayAudio^[k] o).dev.hidden.channel = openPortRes := by
    rw [iterate_PlayAudio_channel, hh]
  have hmb : ∀ i : Fin NUM_BUFFERS, (PSP2AUD_PlayAudio^[k] o).dev.hidden.mixbufs i
      = memalignRes + (i.val * o.dev.spec.size) % 2 ^ 32 := by
    intro i
    rw [iterate_PlayAudio_mixbufs, hh]
    exact setMixbufs_apply _ _ _ i
  have hk2 : k % 2 < NUM_BUFFERS := Nat.mod_lt k (by norm_num)
  have hk2' : (k + 1) % 2 < NUM_BUFFERS := Nat.mod_lt (k + 1) (by norm_num)
  refine ⟨(PSP2AUD_PlayAudio^[k] o).dev.hidden.mixbufs ⟨k % 2, hk2⟩,
    (PSP2AUD_PlayAudio^[k] o).dev.hidden.mixbufs ⟨(k + 1) % 2, hk2'⟩, ?_, ?_, ?_⟩
  · rw [PlayAudio_calls, hch, hnb, mixbufAt_ofNat _ _ hk2]
    simp
  · show mixbufAt _ _ = _
    rw [hnb1, mixbufAt_ofNat _ _ hk2', PlayAudio_mixbufs]
  · rw [hmb, hmb]
    have hsz : o.dev.spec.size % 2 ^ 32 = o.dev.spec.size := Nat.mod_eq_of_lt hlt
    rcases Nat.mod_two_eq_zero_or_one k with h | h
    · have h1 : (k + 1) % 2 = 1 := by omega
      simp only [h, h1, Nat.zero_mul, Nat.one_mul, hsz]
      omega
    · have h1 : (k + 1) % 2 = 0 := by omega
      simp only [h, h1, Nat.zero_mul, Nat.one_mul, hsz]
      omega

/-- Witness for C3, amended: the scenario of the specification (16-bit stereo, 100
frames requested, slot size 512), three submissions made before the one looked at. -/
theorem C3_next_buffer_differs_witness :
    (PSP2AUD_OpenAudio (AudioState.request 44100 AUDIO_S16LSB 2 100) 4096 3).2 = 0 ∧
    (PSP2AUD_OpenAudio (AudioState.request 44100 AUDIO_S16LSB 2 100) 4096 3).1.dev.spec.size ≠ 0 ∧
    ∃ p q : Nat,
      (PSP2AUD_PlayAudio (PSP2AUD_PlayAudio^[3]
        (PSP2AUD_OpenAudio (AudioState.request 44100 AUDIO_S16LSB 2 100) 4096 3).1)).calls.getLast?
        = some (HwCall.sceAudioOutOutput 3 (some p)) ∧
      (PSP2AUD_GetAudioBuf (PSP2AUD_PlayAudio (PSP2AUD_PlayAudio^[3]
        (PSP2AUD_OpenAudio (AudioState.request 44100 AUDIO_S16LSB 2 100) 4096 3).1))).2 = some q ∧
      p ≠ q :=
  ⟨by decide, by decide,
    C3_next_buffer_differs (AudioState.request 44100 AUDIO_S16LSB 2 100) 4096 3 3
      (by decide) (by decide)⟩

/-- C4: after a successful `PSP2AUD_OpenAudio` the slot index is 0; each
`PSP2AUD_PlayAudio` replaces it by `(next_buffer + 1) mod NUM_BUFFERS`; after `k`
submissions `PSP2AUD_GetAudioBuf` returns `mixbufs[k mod 2]`; the index is back at the
first slot after 2 submissions and is not the first slot after 1. -/
theorem C4_ring_rotation (s : AudioState) (memalignRes : Nat) (openPortRes : Int)
    (hok : (PSP2AUD_OpenAudio s memalignRes openPortRes).2 = 0) :
    (PSP2AUD_OpenAudio s memalignRes openPortRes).1.dev.hidden.next_buffer = 0 ∧
    (∀ k : Nat,
      (PSP2AUD_PlayAudio
        (PSP2AUD_PlayAudio^[k] (PSP2AUD_OpenAudio s memalignRes openPortRes).1)).dev.hidden.next_buffer
      = ((PSP2AUD_PlayAudio^[k]
          (PSP2AUD_OpenAudio s memalignRes openPortRes).1).dev.hidden.next_buffer + 1)
          % (NUM_BUFFERS : Int)) ∧
    (∀ k : Nat,
      (PSP2AUD_GetAudioBuf
        (PSP2AUD_PlayAudio^[k] (PSP2AUD_OpenAudio s memalignRes openPortRes).1)).2
      = some ((PSP2AUD_OpenAudio s memalignRes openPortRes).1.dev.hidden.mixbufs
          ⟨k % 2, Nat.mod_lt k (by norm_num)⟩)) ∧
    (PSP2AUD_PlayAudio^[NUM_BUFFERS]
      (PSP2AUD_OpenAudio s memalignRes openPortRes).1).dev.hidden.next_buffer = 0 ∧
    (PSP2AUD_PlayAudio^[1]
      (PSP2AUD_OpenAudio s memalignRes openPortRes).1).dev.hidden.next_buffer ≠ 0 := by
  obtain ⟨hm, hp⟩ := (OpenAudio_ok_iff s memalignRes openPortRes).mp hok
  have hh := OpenAudio_hidden s memalignRes openPortRes hm hp
  generalize (PSP2AUD_OpenAudio s memalignRes openPortRes).1 = o at hh ⊢
  have hnb0 : o.dev.hidden.next_buffer = 0 := by rw [hh]
  refine ⟨hnb0, ?_, ?_, ?_, ?_⟩
  · intro k
    have h1 := iterate_PlayAudio_next_buffer o (k + 1) hnb0
    rw [Function.iterate_succ_apply'] at h1
    rw [h1, iterate_PlayAudio_next_buffer o k hnb0]
    push_cast
    omega
  · intro k
    show mixbufAt _ _ = _
    rw [iterate_PlayAudio_next_buffer o k hnb0, mixbufAt_ofNat _ _ (Nat.mod_lt k (by norm_num)),
      iterate_PlayAudio_mixbufs]
  · rw [iterate_PlayAudio_next_buffer o _ hnb0]
    decide
  · rw [iterate_PlayAudio_next_buffer o _ hnb0]
    decide

/-- Witness for C4: the scenario of the specification, 16-bit stereo with 100 frames
requested, allocation at address 4096, hardware port 3. -/
theorem C4_ring_rotation_witness :
    (PSP2AUD_OpenAudio (AudioState.request 44100 AUDIO_S16LSB 2 100) 4096 3).2 = 0 ∧
    (PSP2AUD_GetAudioBuf (PSP2AUD_PlayAudio^[3]
      (PSP2AUD_OpenAudio (AudioState.request 44100 AUDIO_S16LSB 2 100) 4096 3).1)).2
      = some (4096 + 512) :=
  ⟨by decide,
    ((C4_ring_rotation (AudioState.request 44100 AUDIO_S16LSB 2 100) 4096 3
      (by decide)).2.2.1 3).trans (by decide)⟩

/-- C5: in every device state whose slot index `next_buffer` is an index `i` of the
array `mixbufs`, `PSP2AUD_GetAudioBuf` returns the pointer `mixbufs[i]` and leaves the
whole state as it was, and a second call right after the first returns that same
pointer `mixbufs[i]`.  In every state whatever, the call changes nothing and two
consecutive calls return the same result. -/
theorem C5_GetAudioBuf_repeatable (s : AudioState) (i : Fin NUM_BUFFERS)
    (hi : s.dev.hidden.next_buffer = (i.val : Int)) :
    (PSP2AUD_GetAudioBuf s).2 = some (s.dev.hidden.mixbufs i) ∧
    (PSP2AUD_GetAudioBuf s).1 = s ∧
    (PSP2AUD_GetAudioBuf (PSP2AUD_GetAudioBuf s).1).2 = some (s.dev.hidden.mixbufs i) ∧
    (∀ t : AudioState,
      (PSP2AUD_GetAudioBuf t).1 = t ∧
      (PSP2AUD_GetAudioBuf (PSP2AUD_GetAudioBuf t).1).2 = (PSP2AUD_GetAudioBuf t).2) := by
  have h : (PSP2AUD_GetAudioBuf s).2 = some (s.dev.hidden.mixbufs i) := by
    show mixbufAt s.dev.hidden s.dev.hidden.next_buffer = _
    rw [hi]
    exact mixbufAt_ofNat s.dev.hidden i.val i.isLt
  exact ⟨h, rfl, h, fun _ => ⟨rfl, rfl⟩⟩

/-- Witness for C5: the scenario of the specification after one submission, where the
slot index is 1: both calls return the second slot, at 4096 + 512. -/
theorem C5_GetAudioBuf_repeatable_witness :
    (PSP2AUD_PlayAudio
      (PSP2AUD_OpenAudio (AudioState.request 44100 AUDIO_S16LSB 2 100) 4096 3).1).dev.hidden.next_buffer
      = ((1 : Fin NUM_BUFFERS).val : Int) ∧
    (PSP2AUD_GetAudioBuf (PSP2AUD_PlayAudio
      (PSP2AUD_OpenAudio (AudioState.request 44100 AUDIO_S16LSB 2 100) 4096 3).1)).2
      = some 4608 ∧
    (PSP2AUD_GetAudioBuf (PSP2AUD_GetAudioBuf (PSP2AUD_PlayAudio
      (PSP2AUD_OpenAudio (AudioState.request 44100 AUDIO_S16LSB 2 100) 4096 3).1)).1).2
      = some 4608 :=
  ⟨by decide,
    ((C5_GetAudioBuf_repeatable (PSP2AUD_PlayAudio
      (PSP2AUD_OpenAudio (AudioState.request 44100 AUDIO_S16LSB 2 100) 4096 3).1) 1
      (by decide)).1).trans (by decide),
    ((C5_GetAudioBuf_repeatable (PSP2AUD_PlayAudio
      (PSP2AUD_OpenAudio (AudioState.request 44100 AUDIO_S16LSB 2 100) 4096 3).1) 1
      (by decide)).2.2.1).trans (by decide)⟩

/-! ## The claims on opening and closing the device -/

/-- C8: the claim asks that `channel >= 0` holds exactly when `rawbuf != NULL` in every
state reachable from `PSP2AUD_CreateDevice`.  The device `PSP2AUD_CreateDevice` returns
is cleared to zero, so before any call its channel is 0, a valid handle, while `rawbuf`
is `NULL`; the same holds after an `PSP2AUD_OpenAudio` whose allocation fails, and a
`PSP2AUD_CloseAudio` then releases port 0, which was never opened. -/
theorem C8_created_device_not_coupled :
    PSP2AUD_CreateDevice 0 true true = some zeroedDevice ∧
    (0 ≤ zeroedDevice.hidden.channel ∧ zeroedDevice.hidden.rawbuf = 0) ∧
    ¬ Coupled (runOps (AudioState.around zeroedDevice) []) ∧
    ¬ Coupled (runOps (AudioState.around zeroedDevice) [AudioOp.openAudio 0 3]) ∧
    (runOps (AudioState.around zeroedDevice) [AudioOp.closeAudio]).calls
      = [HwCall.sceAudioOutReleasePort 0] := by
  decide

/-- C9: when `PSP2AUD_OpenAudio` is called on a closed device (`channel < 0`; the call
overwrites `rawbuf`, so its old value, `NULL` on a closed device, plays no part) and
returns -1, the allocation failed or the port request answered a negative handle;
afterwards `rawbuf` is `NULL` and `channel` is negative; if the allocation failed the
only outside call made is the `memalign`, so no port was requested; otherwise the calls
are the `memalign`, one `sceAudioOutOpenPort` and one `free` of the buffer just
allocated. -/
theorem C9_failed_open_holds_nothing (s : AudioState) (memalignRes : Nat) (openPortRes : Int)
    (hch : s.dev.hidden.channel < 0)
    (hfail : (PSP2AUD_OpenAudio s memalignRes openPortRes).2 = -1) :
    (memalignRes = 0 ∨ openPortRes < 0) ∧
    (PSP2AUD_OpenAudio s memalignRes openPortRes).1.dev.hidden.rawbuf = 0 ∧
    (PSP2AUD_OpenAudio s memalignRes openPortRes).1.dev.hidden.channel < 0 ∧
    (PSP2AUD_OpenAudio s memalignRes openPortRes).1.calls = s.calls ++
      (if memalignRes = 0 then
        [HwCall.memalign 64
          (toUint32 (toInt32 (((PSP2AUD_OpenAudio s memalignRes openPortRes).1.dev.spec.size
            * NUM_BUFFERS) % 2 ^ 32 : Nat))) 0]
      else
        [HwCall.memalign 64
          (toUint32 (toInt32 (((PSP2AUD_OpenAudio s memalignRes openPortRes).1.dev.spec.size
            * NUM_BUFFERS) % 2 ^ 32 : Nat))) memalignRes,
         HwCall.sceAudioOutOpenPort SCE_AUDIO_OUT_PORT_TYPE_MAIN
          (PSP2AUD_OpenAudio s memalignRes openPortRes).1.dev.spec.samples 48000
          (if s.dev.spec.channels = 1 then SCE_AUDIO_OUT_MODE_MONO
            else SCE_AUDIO_OUT_MODE_STEREO) openPortRes,
         HwCall.free memalignRes]) := by
  have hres := OpenAudio_result s memalignRes openPortRes
  rw [hfail] at hres
  have hcase : memalignRes = 0 ∨ openPortRes < 0 := by
    by_contra hcon
    push_neg at hcon
    rw [if_pos ⟨hcon.1, hcon.2⟩] at hres
    exact absurd hres (by decide)
  have hh := OpenAudio_failed_hidden s memalignRes openPortRes hcase
  have hc := OpenAudio_calls s memalignRes openPortRes
  refine ⟨hcase, by rw [hh], ?_, ?_⟩
  · rw [hh]
    show (if memalignRes = 0 then s.dev.hidden.channel else openPortRes) < 0
    split_ifs with hm
    · exact hch
    · rcases hcase with h | h
      · exact absurd h hm
      · exact h
  · rw [hc]
    by_cases hm : memalignRes = 0
    · rw [if_pos hm, if_pos hm]
    · have hp : openPortRes < 0 := by
        rcases hcase with h | h
        · exact absurd h hm
        · exact h
      rw [if_neg hm, if_neg hm, if_pos hp]

/-- Witness for C9: a closed device (channel -1, no buffer), 16-bit stereo with 100
frames, allocation at 4096 granted and the port request refused with -5. -/
theorem C9_failed_open_holds_nothing_witness :
    (PSP2AUD_CloseAudio (AudioState.request 44100 AUDIO_S16LSB 2 100)).dev.hidden.channel < 0 ∧
    (PSP2AUD_CloseAudio (AudioState.request 44100 AUDIO_S16LSB 2 100)).dev.hidden.rawbuf = 0 ∧
    (PSP2AUD_OpenAudio (PSP2AUD_CloseAudio (AudioState.request 44100 AUDIO_S16LSB 2 100))
      4096 (-5)).2 = -1 ∧
    (PSP2AUD_OpenAudio (PSP2AUD_CloseAudio (AudioState.request 44100 AUDIO_S16LSB 2 100))
      4096 (-5)).1.dev.hidden.rawbuf = 0 :=
  ⟨by decide, by decide, by decide,
    (C9_failed_open_holds_nothing
      (PSP2AUD_CloseAudio (AudioState.request 44100 AUDIO_S16LSB 2 100)) 4096 (-5)
      (by decide) (by decide)).2.1⟩

/-- C10: `PSP2AUD_OpenAudio` returns -1 for both failures, and the error it sets is
"Couldn't allocate mixing buffer" when the allocation fails and "Couldn't reserve
hardware channel" when the port request fails; so the return value together with the
error set differs between the two failures. -/
theorem C10_failures_distinguished (s t : AudioState) (openPortRes1 : Int)
    (memalignRes : Nat) (openPortRes : Int)
    (hm : memalignRes ≠ 0) (hp : openPortRes < 0) :
    (PSP2AUD_OpenAudio s 0 openPortRes1).2 = -1 ∧
    (PSP2AUD_OpenAudio s 0 openPortRes1).1.error = some "Couldn't allocate mixing buffer" ∧
    (PSP2AUD_OpenAudio t memalignRes openPortRes).2 = -1 ∧
    (PSP2AUD_OpenAudio t memalignRes openPortRes).1.error
      = some "Couldn't reserve hardware channel" ∧
    ((PSP2AUD_OpenAudio s 0 openPortRes1).2, (PSP2AUD_OpenAudio s 0 openPortRes1).1.error)
      ≠ ((PSP2AUD_OpenAudio t memalignRes openPortRes).2,
          (PSP2AUD_OpenAudio t memalignRes openPortRes).1.error) := by
  have ha : (PSP2AUD_OpenAudio s 0 openPortRes1).2 = -1 := by
    rw [OpenAudio_result]; simp
  have hb : (PSP2AUD_OpenAudio t memalignRes openPortRes).2 = -1 := by
    rw [OpenAudio_result, if_neg]
    intro h
    exact absurd h.2 (not_le.mpr hp)
  have hae : (PSP2AUD_OpenAudio s 0 openPortRes1).1.error
      = some "Couldn't allocate mixing buffer" := by
    rw [OpenAudio_error, if_pos rfl]
  have hbe : (PSP2AUD_OpenAudio t memalignRes openPortRes).1.error
      = some "Couldn't reserve hardware channel" := by
    rw [OpenAudio_error, if_neg hm, if_pos hp]
  refine ⟨ha, hae, hb, hbe, ?_⟩
  rw [ha, hae, hb, hbe]
  decide

/-- Witness for C10: the same request, once with the allocation refused and once with
the allocation at 4096 granted and the port request refused with -5. -/
theorem C10_failures_distinguished_witness :
    (4096 : Nat) ≠ 0 ∧ (-5 : Int) < 0 ∧
    ((PSP2AUD_OpenAudio (AudioState.request 44100 AUDIO_S16LSB 2 100) 0 3).2,
      (PSP2AUD_OpenAudio (AudioState.request 44100 AUDIO_S16LSB 2 100) 0 3).1.error)
      ≠ ((PSP2AUD_OpenAudio (AudioState.request 44100 AUDIO_S16LSB 2 100) 4096 (-5)).2,
          (PSP2AUD_OpenAudio (AudioState.request 44100 AUDIO_S16LSB 2 100) 4096 (-5)).1.error) :=
  ⟨by decide, by decide,
    (C10_failures_distinguished (AudioState.request 44100 AUDIO_S16LSB 2 100)
      (AudioState.request 44100 AUDIO_S16LSB 2 100) 3 4096 (-5) (by decide) (by decide)).2.2.2.2⟩

/-! ## The claims on the semaphores -/

/-- C1: the claim asks that `SDL_SemWaitTimeout(sem, 0)` returns 0 exactly when the poll
took a token and `SDL_MUTEX_TIMEDOUT` when the count is zero.  The poll result is kept
in an `unsigned int`, which is never below 0, so for every kernel and every semaphore
the call (and `SDL_SemTryWait`) returns 0.  On a semaphore created with count 0 the
kernel poll answers an error code and leaves the count at 0, and `SDL_SemTryWait` still
returns 0 and not `SDL_MUTEX_TIMEDOUT`. -/
theorem C1_poll_always_returns_0 :
    (∀ (κ : Type) (K : KernelOps κ) (s : SemState κ) (sem : SDL_sem),
      (SDL_SemWaitTimeout K s (some sem) 0).2 = some 0 ∧
      (SDL_SemTryWait K s (some sem)).2 = some 0) ∧
    (SDL_CreateSemaphore vitaKernel SemState.start 0 true).2 = some { semid := 1 } ∧
    (vitaKernel.sceKernelPollSema
      (SDL_CreateSemaphore vitaKernel SemState.start 0 true).1.kernel 1 1).2 < 0 ∧
    (SDL_SemTryWait vitaKernel (SDL_CreateSemaphore vitaKernel SemState.start 0 true).1
      (some { semid := 1 })).2 = some 0 ∧
    (SDL_SemTryWait vitaKernel (SDL_CreateSemaphore vitaKernel SemState.start 0 true).1
      (some { semid := 1 })).2 ≠ some SDL_MUTEX_TIMEDOUT ∧
    (SDL_SemValue vitaKernel
      (SDL_SemTryWait vitaKernel (SDL_CreateSemaphore vitaKernel SemState.start 0 true).1
        (some { semid := 1 })).1 (some { semid := 1 })).2 = 0 := by
  refine ⟨?_, by decide, by decide, by decide, by decide, by decide⟩
  intro κ K s sem
  constructor
  · rw [SemWaitTimeout_poll]
  · unfold SDL_SemTryWait
    rw [SemWaitTimeout_poll]

/-- C6, as the claim states it, fails at the largest count the semaphore can hold: on a
semaphore created with count 255, the maximum `SDL_CreateSemaphore` gives the kernel
semaphore, `SDL_SemPost` returns -1, the following `SDL_SemWait` returns 0, and
`SDL_SemValue` is then 254 and not 255. -/
theorem C6_counterexample_full_semaphore :
    (SDL_CreateSemaphore vitaKernel SemState.start 255 true).2 = some { semid := 1 } ∧
    (SDL_SemValue vitaKernel (SDL_CreateSemaphore vitaKernel SemState.start 255 true).1
      (some { semid := 1 })).2 = 255 ∧
    (SDL_SemPost vitaKernel (SDL_CreateSemaphore vitaKernel SemState.start 255 true).1
      (some { semid := 1 })).2 = -1 ∧
    (SDL_SemWait vitaKernel
      (SDL_SemPost vitaKernel (SDL_CreateSemaphore vitaKernel SemState.start 255 true).1
        (some { semid := 1 })).1 (some { semid := 1 })).2 = some 0 ∧
    (SDL_SemValue vitaKernel
      (SDL_SemWait vitaKernel
        (SDL_SemPost vitaKernel (SDL_CreateSemaphore vitaKernel SemState.start 255 true).1
          (some { semid := 1 })).1 (some { semid := 1 })).1 (some { semid := 1 })).2 = 254 := by
  decide

/-- C6, amended: for a semaphore whose kernel semaphore holds a count from 0 up to, but
not including, its maximum count (255 for every semaphore `SDL_CreateSemaphore` makes),
with no other thread involved, `SDL_SemPost` returns 0, the `SDL_SemWait` right after it
returns 0, and `SDL_SemValue` is then what it was before the post. -/
theorem C6_post_then_wait (s : SemState VitaKernel) (sem : SDL_sem) (v : KSema)
    (hfind : s.kernel.find sem.semid = some v)
    (h0 : 0 ≤ v.currentCount) (hlt : v.currentCount < v.maxCount) :
    (SDL_SemPost vitaKernel s (some sem)).2 = 0 ∧
    (SDL_SemWait vitaKernel (SDL_SemPost vitaKernel s (some sem)).1 (some sem)).2 = some 0 ∧
    (SDL_SemValue vitaKernel
      (SDL_SemWait vitaKernel (SDL_SemPost vitaKernel s (some sem)).1 (some sem)).1
      (some sem)).2 = (SDL_SemValue vitaKernel s (some sem)).2 := by
  have hpost : SDL_SemPost vitaKernel s (some sem)
      = (s.call (SemCall.sceKernelSignalSema sem.semid 1)
          (s.kernel.set sem.semid { v with currentCount := v.currentCount + 1 }), 0) := by
    simp [SDL_SemPost, vitaKernel_signal_ok _ _ _ hfind hlt]
  have hfind1 : (s.call (SemCall.sceKernelSignalSema sem.semid 1)
      (s.kernel.set sem.semid { v with currentCount := v.currentCount + 1 })).kernel.find sem.semid
      = some { v with currentCount := v.currentCount + 1 } :=
    VitaKernel.find_set _ _ _ _ hfind
  have hwait : SDL_SemWait vitaKernel (SDL_SemPost vitaKernel s (some sem)).1 (some sem)
      = (((s.call (SemCall.sceKernelSignalSema sem.semid 1)
            (s.kernel.set sem.semid { v with currentCount := v.currentCount + 1 })).call
          (SemCall.sceKernelWaitSema sem.semid 1 none)
          ((s.kernel.set sem.semid { v with currentCount := v.currentCount + 1 }).set sem.semid
            { v with currentCount := v.currentCount + 1 - 1 })), some 0) := by
    rw [hpost]
    have hw := vitaKernel_wait_ok _ sem.semid _ none hfind1
      (show (1 : Int) ≤ v.currentCount + 1 by omega) (show (1 : Int) ≤ v.maxCount by omega)
    simp only [SemState.call] at hw ⊢
    simp [SDL_SemWait, SDL_SemWaitTimeout, SDL_MUTEX_MAXWAIT, hw, SemState.call, SCE_KERNEL_OK,
      toUint32]
  refine ⟨by rw [hpost], by rw [hwait], ?_⟩
  rw [hwait, SemValue_vitaKernel s sem v hfind]
  have hfind2 := VitaKernel.find_set _ sem.semid _
    ({ v with currentCount := v.currentCount + 1 - 1 } : KSema) hfind1
  rw [SemValue_vitaKernel _ sem _ hfind2]
  simp

/-- Witness for C6, amended: a semaphore created by `SDL_CreateSemaphore` with count 3. -/
theorem C6_post_then_wait_witness :
    (SDL_CreateSemaphore vitaKernel SemState.start 3 true).2 = some { semid := 1 } ∧
    (SDL_CreateSemaphore vitaKernel SemState.start 3 true).1.kernel.find 1
      = some { currentCount := 3, maxCount := 255 } ∧
    (SDL_SemValue vitaKernel
      (SDL_SemWait vitaKernel
        (SDL_SemPost vitaKernel (SDL_CreateSemaphore vitaKernel SemState.start 3 true).1
          (some { semid := 1 })).1 (some { semid := 1 })).1 (some { semid := 1 })).2
      = (SDL_SemValue vitaKernel (SDL_CreateSemaphore vitaKernel SemState.start 3 true).1
          (some { semid := 1 })).2 :=
  ⟨by decide, by decide,
    (C6_post_then_wait (SDL_CreateSemaphore vitaKernel SemState.start 3 true).1 { semid := 1 }
      { currentCount := 3, maxCount := 255 } (by decide) (by decide) (by decide)).2.2⟩

/-- C7: the claim asks that a timeout other than 0 and `SDL_MUTEX_MAXWAIT` reaches the
kernel as exactly `t * 1000` microseconds, nothing lost to 32-bit wrap-around.  For
`t = 4294968` ms the `Uint32` product wraps: for every kernel and semaphore the kernel
wait is called with a timeout of 704 microseconds, not 4294968000.  `SDL_Delay`, which
makes the same conversion, clamps first and passes 4294967000 for the same `t`. -/
theorem C7_timeout_4294968_wraps (κ : Type) (K : KernelOps κ) (s : SemState κ) (sem : SDL_sem) :
    (SDL_SemWaitTimeout K s (some sem) 4294968).1.calls
      = s.calls ++ [SemCall.sceKernelWaitSema sem.semid 1 (some 704)] ∧
    (704 : Nat) ≠ 4294968 * 1000 ∧
    SDL_Delay 4294968 = 4294967000 := by
  refine ⟨?_, by decide, by decide⟩
  have h : (if 4294968 = SDL_MUTEX_MAXWAIT then none else some ((4294968 * 1000) % 2 ^ 32))
      = some 704 := by decide
  rw [SemWaitTimeout_calls K s sem 4294968 (by decide), h]

/-! ## The claims on closing, the stored format and submission -/

theorem CloseAudio_closed (s : AudioState) (hch : s.dev.hidden.channel < 0)
    (hraw : s.dev.hidden.rawbuf = 0) : PSP2AUD_CloseAudio s = s := by
  unfold PSP2AUD_CloseAudio
  simp only [if_neg (not_le.mpr hch)]
  rw [if_neg (by simpa using hraw)]

theorem CloseAudio_channel (s : AudioState) :
    (PSP2AUD_CloseAudio s).dev.hidden.channel
      = if 0 ≤ s.dev.hidden.channel then -1 else s.dev.hidden.channel := by
  unfold PSP2AUD_CloseAudio
  simp only [AudioState.setHidden, AudioState.call]
  split_ifs <;> rfl

theorem CloseAudio_rawbuf (s : AudioState) : (PSP2AUD_CloseAudio s).dev.hidden.rawbuf = 0 := by
  unfold PSP2AUD_CloseAudio
  simp only [AudioState.setHidden, AudioState.call]
  split_ifs <;> simp_all

theorem CloseAudio_calls (s : AudioState) :
    (PSP2AUD_CloseAudio s).calls = s.calls ++
      ((if 0 ≤ s.dev.hidden.channel then [HwCall.sceAudioOutReleasePort s.dev.hidden.channel]
          else []) ++
        (if s.dev.hidden.rawbuf ≠ 0 then [HwCall.free s.dev.hidden.rawbuf] else [])) := by
  unfold PSP2AUD_CloseAudio
  simp only [AudioState.setHidden, AudioState.call]
  split_ifs <;> simp_all

/-- C11: for every device state, after `PSP2AUD_CloseAudio` the channel is negative and
`rawbuf` is `NULL`; the outside calls it made are one `sceAudioOutReleasePort` of the
channel if that was `>= 0` and one `free` of `rawbuf` if that was not `NULL`, and no
other; a second `PSP2AUD_CloseAudio` leaves the whole state, trace of calls included,
as the first left it. -/
theorem C11_CloseAudio_idempotent (s : AudioState) :
    (PSP2AUD_CloseAudio s).dev.hidden.channel < 0 ∧
    (PSP2AUD_CloseAudio s).dev.hidden.rawbuf = 0 ∧
    (PSP2AUD_CloseAudio s).calls = s.calls ++
      ((if 0 ≤ s.dev.hidden.channel then [HwCall.sceAudioOutReleasePort s.dev.hidden.channel]
          else []) ++
        (if s.dev.hidden.rawbuf ≠ 0 then [HwCall.free s.dev.hidden.rawbuf] else [])) ∧
    PSP2AUD_CloseAudio (PSP2AUD_CloseAudio s) = PSP2AUD_CloseAudio s ∧
    (PSP2AUD_CloseAudio (PSP2AUD_CloseAudio s)).calls = (PSP2AUD_CloseAudio s).calls := by
  have hch : (PSP2AUD_CloseAudio s).dev.hidden.channel < 0 := by
    rw [CloseAudio_channel]
    split_ifs with h
    · decide
    · omega
  have hidem := CloseAudio_closed _ hch (CloseAudio_rawbuf s)
  exact ⟨hch, CloseAudio_rawbuf s, CloseAudio_calls s, hidem, by rw [hidem]⟩

theorem OpenAudio_freq (s : AudioState) (mr : Nat) (pr : Int) :
    (PSP2AUD_OpenAudio s mr pr).1.dev.spec.freq = 48000 := by
  unfold PSP2AUD_OpenAudio
  simp only [AudioState.setSpec, AudioState.setHidden, AudioState.call, AudioState.setError]
  split_ifs <;> rfl

theorem OpenAudio_silence (s : AudioState) (mr : Nat) (pr : Int) :
    (PSP2AUD_OpenAudio s mr pr).1.dev.spec.silence
      = if s.dev.spec.format = AUDIO_U8 then 0x80 else 0x00 := by
  unfold PSP2AUD_OpenAudio
  simp only [AudioState.setSpec, AudioState.setHidden, AudioState.call, AudioState.setError]
  split_ifs <;> rfl

theorem OpenAudio_size (s : AudioState) (mr : Nat) (pr : Int) :
    (PSP2AUD_OpenAudio s mr pr).1.dev.spec.size
      = ((((SDL_AUDIO_BITSIZE s.dev.spec.format / 8) % 2 ^ 32) * s.dev.spec.channels) % 2 ^ 32
          * (PSP2AUD_OpenAudio s mr pr).1.dev.spec.samples) % 2 ^ 32 := by
  unfold PSP2AUD_OpenAudio
  simp only [AudioState.setSpec, AudioState.setHidden, AudioState.call, AudioState.setError]
  split_ifs <;> rfl

/-- C12: whatever rate was requested and whether the open succeeds or fails, after
`PSP2AUD_OpenAudio` the rate in `this->spec.freq` is 48000. -/
theorem C12_rate_is_48000 (s : AudioState) (freq : Int) (memalignRes : Nat)
    (openPortRes : Int) :
    (PSP2AUD_OpenAudio (s.setSpec { s.dev.spec with freq := freq })
      memalignRes openPortRes).1.dev.spec.freq = 48000 :=
  OpenAudio_freq _ memalignRes openPortRes

/-- C13: after `PSP2AUD_OpenAudio` the silence value in `this->spec.silence` is 0x80 if
the format is `AUDIO_U8` and 0x00 for every other format. -/
theorem C13_silence_value (s : AudioState) (memalignRes : Nat) (openPortRes : Int) :
    (s.dev.spec.format = AUDIO_U8 →
      (PSP2AUD_OpenAudio s memalignRes openPortRes).1.dev.spec.silence = 0x80) ∧
    (s.dev.spec.format ≠ AUDIO_U8 →
      (PSP2AUD_OpenAudio s memalignRes openPortRes).1.dev.spec.silence = 0x00) := by
  rw [OpenAudio_silence]
  constructor
  · intro h; rw [if_pos h]
  · intro h; rw [if_neg h]

/-- Witness for C13: an unsigned 8-bit request and a signed 16-bit request. -/
theorem C13_silence_value_witness :
    (PSP2AUD_OpenAudio (AudioState.request 44100 AUDIO_U8 1 64) 4096 3).1.dev.spec.silence
      = 0x80 ∧
    (PSP2AUD_OpenAudio (AudioState.request 44100 AUDIO_S16LSB 2 64) 4096 3).1.dev.spec.silence
      = 0x00 :=
  ⟨(C13_silence_value (AudioState.request 44100 AUDIO_U8 1 64) 4096 3).1 (by decide),
   (C13_silence_value (AudioState.request 44100 AUDIO_S16LSB 2 64) 4096 3).2 (by decide)⟩

theorem SDL_AUDIO_BITSIZE_le (x : Nat) : SDL_AUDIO_BITSIZE x ≤ 255 := by
  unfold SDL_AUDIO_BITSIZE SDL_AUDIO_MASK_BITSIZE
  exact Nat.and_le_right

theorem OpenAudio_samples_le (s : AudioState) (mr : Nat) (pr : Int)
    (hs : s.dev.spec.samples < 2 ^ 16) :
    (PSP2AUD_OpenAudio s mr pr).1.dev.spec.samples ≤ 65472 := by
  rw [OpenAudio_samples_eq s mr pr hs]
  split_ifs with h <;> omega

theorem OpenAudio_size_exact (s : AudioState) (mr : Nat) (pr : Int)
    (hc : s.dev.spec.channels < 2 ^ 8) (hs : s.dev.spec.samples < 2 ^ 16) :
    (PSP2AUD_OpenAudio s mr pr).1.dev.spec.size
      = SDL_AUDIO_BITSIZE s.dev.spec.format / 8 * s.dev.spec.channels
          * (PSP2AUD_OpenAudio s mr pr).1.dev.spec.samples ∧
    SDL_AUDIO_BITSIZE s.dev.spec.format / 8 * s.dev.spec.channels
          * (PSP2AUD_OpenAudio s mr pr).1.dev.spec.samples ≤ 31 * 255 * 65472 := by
  have hb : SDL_AUDIO_BITSIZE s.dev.spec.format / 8 ≤ 31 := by
    have := SDL_AUDIO_BITSIZE_le s.dev.spec.format
    omega
  have hsm := OpenAudio_samples_le s mr pr hs
  have hc1 : s.dev.spec.channels ≤ 255 := by
    have : (2 : Nat) ^ 8 = 256 := by norm_num
    omega
  have h1 : SDL_AUDIO_BITSIZE s.dev.spec.format / 8 * s.dev.spec.channels ≤ 31 * 255 :=
    Nat.mul_le_mul hb hc1
  have h2 : SDL_AUDIO_BITSIZE s.dev.spec.format / 8 * s.dev.spec.channels
      * (PSP2AUD_OpenAudio s mr pr).1.dev.spec.samples ≤ 31 * 255 * 65472 :=
    Nat.mul_le_mul h1 hsm
  refine ⟨?_, h2⟩
  rw [OpenAudio_size]
  have e1 : (SDL_AUDIO_BITSIZE s.dev.spec.format / 8) % 2 ^ 32
      = SDL_AUDIO_BITSIZE s.dev.spec.format / 8 :=
    Nat.mod_eq_of_lt (lt_of_le_of_lt hb (by norm_num))
  have e2 : (SDL_AUDIO_BITSIZE s.dev.spec.format / 8 * s.dev.spec.channels) % 2 ^ 32
      = SDL_AUDIO_BITSIZE s.dev.spec.format / 8 * s.dev.spec.channels :=
    Nat.mod_eq_of_lt (lt_of_le_of_lt h1 (by norm_num))
  rw [e1, e2]
  exact Nat.mod_eq_of_lt (lt_of_le_of_lt h2 (by norm_num))

/-- C14: for every format, every channel count (a `Uint8`) and every requested sample
count (a `Uint16`), after `PSP2AUD_OpenAudio` the value of `this->spec.size` is the
exact product of (bits per sample of the format / 8), the channel count and the stored
(aligned) sample count: the product is below `2 ^ 32`, so the `Uint32` arithmetic loses
nothing.  For 16-bit samples, 2 channels and 100 requested frames it is 512. -/
theorem C14_size_is_exact_product (s : AudioState) (memalignRes : Nat) (openPortRes : Int)
    (hc : s.dev.spec.channels < 2 ^ 8) (hs : s.dev.spec.samples < 2 ^ 16) :
    (PSP2AUD_OpenAudio s memalignRes openPortRes).1.dev.spec.size
      = SDL_AUDIO_BITSIZE s.dev.spec.format / 8 * s.dev.spec.channels
          * (PSP2AUD_OpenAudio s memalignRes openPortRes).1.dev.spec.samples ∧
    SDL_AUDIO_BITSIZE s.dev.spec.format / 8 * s.dev.spec.channels
          * (PSP2AUD_OpenAudio s memalignRes openPortRes).1.dev.spec.samples < 2 ^ 32 ∧
    (PSP2AUD_OpenAudio (AudioState.request 44100 AUDIO_S16LSB 2 100)
      memalignRes openPortRes).1.dev.spec.samples = 128 ∧
    (PSP2AUD_OpenAudio (AudioState.request 44100 AUDIO_S16LSB 2 100)
      memalignRes openPortRes).1.dev.spec.size = 2 * 2 * 128 := by
  obtain ⟨h1, h2⟩ := OpenAudio_size_exact s memalignRes openPortRes hc hs
  have hsm : (PSP2AUD_OpenAudio (AudioState.request 44100 AUDIO_S16LSB 2 100)
      memalignRes openPortRes).1.dev.spec.samples = 128 := by
    rw [OpenAudio_samples]
    decide
  refine ⟨h1, lt_of_le_of_lt h2 (by norm_num), hsm, ?_⟩
  rw [(OpenAudio_size_exact (AudioState.request 44100 AUDIO_S16LSB 2 100)
    memalignRes openPortRes (by decide) (by decide)).1, hsm]
  decide

/-- Witness for C14: a 32-bit format code, 255 channels and 65472 frames, the largest
slot the types allow that is not wrapped by the sample alignment. -/
theorem C14_size_is_exact_product_witness :
    (255 : Nat) < 2 ^ 8 ∧ (65472 : Nat) < 2 ^ 16 ∧
    (PSP2AUD_OpenAudio (AudioState.request 44100 0x8020 255 65472) 4096 3).1.dev.spec.size
      = 4 * 255 * 65472 :=
  ⟨by decide, by decide,
    ((C14_size_is_exact_product (AudioState.request 44100 0x8020 255 65472) 4096 3
      (by decide) (by decide)).1).trans (by decide)⟩

/-- C15: each `PSP2AUD_PlayAudio` makes exactly two outside calls, both on the device's
channel and in this order: `sceAudioOutSetVolume` with the left and the right channel
flag and the volumes `{0x8000, 0x8000}`, then `sceAudioOutOutput` with the buffer
`PSP2AUD_GetAudioBuf` returns just before the call; the slot index in the state the call
leaves is the advanced one, while the buffer given to the hardware is the slot of the
index before the call. -/
theorem C15_PlayAudio_calls (s : AudioState) :
    (PSP2AUD_PlayAudio s).calls = s.calls ++
      [HwCall.sceAudioOutSetVolume s.dev.hidden.channel
          (SCE_AUDIO_VOLUME_FLAG_L_CH ||| SCE_AUDIO_VOLUME_FLAG_R_CH) [0x8000, 0x8000],
       HwCall.sceAudioOutOutput s.dev.hidden.channel (PSP2AUD_GetAudioBuf s).2] ∧
    SCE_AUDIO_MAX_VOLUME = 0x8000 ∧
    (PSP2AUD_GetAudioBuf s).2 = mixbufAt s.dev.hidden s.dev.hidden.next_buffer ∧
    (PSP2AUD_PlayAudio s).dev.hidden.next_buffer
      = Int.tmod (toInt32 (s.dev.hidden.next_buffer + 1)) NUM_BUFFERS :=
  ⟨PlayAudio_calls s, rfl, rfl, rfl⟩

/-! ## The claim on the hardware ports held -/

theorem heldPorts_append (a b : List HwCall) :
    heldPorts (a ++ b) = heldPortsFrom (heldPorts a) b := by
  unfold heldPorts heldPortsFrom
  rw [List.foldl_append]

theorem PortInv_length (isOpen : Bool) (s : AudioState) (h : PortInv isOpen s) :
    (heldPorts s.calls).length ≤ 1 := by
  rcases h with h | ⟨_, _, h⟩ <;> rw [h] <;> simp

theorem PortInv_open (s : AudioState) (mr : Nat) (pr : Int) (h : PortInv false s) :
    PortInv (decide (mr ≠ 0 ∧ 0 ≤ pr)) (PSP2AUD_OpenAudio s mr pr).1 := by
  have h0 : heldPorts s.calls = [] := by
    rcases h with h | ⟨hf, _, _⟩
    · exact h
    · exact absurd hf (by decide)
  unfold PortInv
  rw [OpenAudio_calls, heldPorts_append, h0]
  by_cases hm : mr = 0
  · left
    rw [if_pos hm]
    rfl
  · rw [if_neg hm]
    by_cases hp : pr < 0
    · left
      rw [if_pos hp]
      simp [heldPortsFrom, heldStep, not_le.mpr hp]
    · right
      have hp' : 0 ≤ pr := not_lt.mp hp
      rw [if_neg hp, OpenAudio_hidden s mr pr hm hp']
      refine ⟨by simp [hm, hp'], hp', ?_⟩
      simp [heldPortsFrom, heldStep, hp']

theorem PortInv_close (isOpen : Bool) (s : AudioState) (h : PortInv isOpen s) :
    PortInv false (PSP2AUD_CloseAudio s) := by
  left
  rw [CloseAudio_calls, heldPorts_append]
  by_cases hch : 0 ≤ s.dev.hidden.channel
  · rw [if_pos hch]
    have he : (heldPorts s.calls).erase s.dev.hidden.channel = [] := by
      rcases h with h | ⟨_, _, h⟩ <;> rw [h] <;> simp
    split_ifs <;> simp [heldPortsFrom, heldStep, he]
  · have h0 : heldPorts s.calls = [] := by
      rcases h with h | ⟨_, hc, _⟩
      · exact h
      · exact absurd hc hch
    rw [if_neg hch, h0]
    split_ifs <;> simp [heldPortsFrom, heldStep]

theorem PortInv_play (isOpen : Bool) (s : AudioState) (h : PortInv isOpen s) :
    PortInv isOpen (PSP2AUD_PlayAudio s) := by
  have hc : heldPorts (PSP2AUD_PlayAudio s).calls = heldPorts s.calls := by
    rw [PlayAudio_calls, heldPorts_append]
    simp [heldPortsFrom, heldStep]
  unfold PortInv
  rw [hc, PlayAudio_channel]
  exact h

theorem PortInv_runOps (ops : List AudioOp) :
    ∀ (isOpen : Bool) (s : AudioState), PortInv isOpen s → noReopen isOpen ops = true →
      ∀ n : Nat, (heldPorts (runOps s (ops.take n)).calls).length ≤ 1 := by
  induction ops with
  | nil =>
    intro isOpen s h _ n
    simpa [runOps] using PortInv_length isOpen s h
  | cons op rest ih =>
    intro isOpen s h hd n
    cases n with
    | zero => simpa [runOps] using PortInv_length isOpen s h
    | succ m =>
      have hrun : runOps s ((op :: rest).take (m + 1))
          = runOps (AudioOp.step s op) (rest.take m) := by
        simp [runOps]
      rw [hrun]
      cases op with
      | openAudio mr pr =>
        simp only [noReopen, Bool.and_eq_true, Bool.not_eq_true'] at hd
        obtain ⟨hf, hrest⟩ := hd
        subst hf
        exact ih _ _ (PortInv_open s mr pr h) hrest m
      | playAudio => exact ih _ _ (PortInv_play isOpen s h) hd m
      | getAudioBuf => exact ih _ _ h hd m
      | closeAudio => exact ih _ _ (PortInv_close isOpen s h) hd m

/-- C16, as the claim states it, fails: two `PSP2AUD_OpenAudio` calls in a row that both
succeed obtain the ports 3 and 4 and release neither, so two ports are held; the
`PSP2AUD_CloseAudio` that follows releases only port 4. -/
theorem C16_counterexample_open_twice :
    heldPorts (runOps (AudioState.request 44100 AUDIO_S16LSB 2 100)
      [AudioOp.openAudio 4096 3, AudioOp.openAudio 8192 4]).calls = [3, 4] ∧
    ¬ ((heldPorts (runOps (AudioState.request 44100 AUDIO_S16LSB 2 100)
      [AudioOp.openAudio 4096 3, AudioOp.openAudio 8192 4]).calls).length ≤ 1) ∧
    heldPorts (runOps (AudioState.request 44100 AUDIO_S16LSB 2 100)
      [AudioOp.openAudio 4096 3, AudioOp.openAudio 8192 4, AudioOp.closeAudio]).calls = [3] := by
  decide

/-- C16, amended: start with no port held and make any sequence of `PSP2AUD_OpenAudio`,
`PSP2AUD_PlayAudio`, `PSP2AUD_GetAudioBuf` and `PSP2AUD_CloseAudio` calls in which, once
a `PSP2AUD_OpenAudio` has succeeded, `PSP2AUD_OpenAudio` is not called again before
`PSP2AUD_CloseAudio`; then after every number `n` of these calls the ports obtained from
`sceAudioOutOpenPort` and not yet released by `sceAudioOutReleasePort` are at most one. -/
theorem C16_at_most_one_port (s : AudioState) (ops : List AudioOp)
    (hstart : heldPorts s.calls = []) (hdisc : noReopen false ops = true) (n : Nat) :
    (heldPorts (runOps s (ops.take n)).calls).length ≤ 1 :=
  PortInv_runOps ops false s (Or.inl hstart) hdisc n

/-- Witness for C16, amended: open, submit twice, close, a failed open, open again,
submit. -/
theorem C16_at_most_one_port_witness :
    heldPorts (AudioState.request 44100 AUDIO_S16LSB 2 100).calls = [] ∧
    noReopen false
      [AudioOp.openAudio 4096 3, AudioOp.playAudio, AudioOp.playAudio, AudioOp.closeAudio,
        AudioOp.openAudio 0 0, AudioOp.openAudio 8192 4, AudioOp.playAudio] = true ∧
    (heldPorts (runOps (AudioState.request 44100 AUDIO_S16LSB 2 100)
      ([AudioOp.openAudio 4096 3, AudioOp.playAudio, AudioOp.playAudio, AudioOp.closeAudio,
        AudioOp.openAudio 0 0, AudioOp.openAudio 8192 4, AudioOp.playAudio].take 7)).calls).length
      ≤ 1 :=
  ⟨by decide, by decide,
    C16_at_most_one_port (AudioState.request 44100 AUDIO_S16LSB 2 100)
      [AudioOp.openAudio 4096 3, AudioOp.playAudio, AudioOp.playAudio, AudioOp.closeAudio,
        AudioOp.openAudio 0 0, AudioOp.openAudio 8192 4, AudioOp.playAudio]
      (by decide) (by decide) 7⟩

/-! ## More lemmas on the semaphores -/

theorem toUint32_eq_zero_iff (v : Int) (hlo : -2 ^ 31 ≤ v) (hhi : v < 2 ^ 31) :
    toUint32 v = SCE_KERNEL_OK ↔ v = 0 := by
  unfold toUint32 SCE_KERNEL_OK
  omega

theorem toUint32_eq_timeout_iff (v : Int) (hlo : -2 ^ 31 ≤ v) (hhi : v < 2 ^ 31) :
    toUint32 v = SCE_KERNEL_ERROR_WAIT_TIMEOUT ↔ v = toInt32 SCE_KERNEL_ERROR_WAIT_TIMEOUT := by
  unfold toUint32 toInt32 SCE_KERNEL_ERROR_WAIT_TIMEOUT
  omega

theorem SemWaitTimeout_wait {κ : Type} (K : KernelOps κ) (s : SemState κ) (sem : SDL_sem)
    (t : Nat) (ht : t ≠ 0) :
    (SDL_SemWaitTimeout K s (some sem) t).2 =
      match (K.sceKernelWaitSema s.kernel sem.semid 1
        (if t = SDL_MUTEX_MAXWAIT then none else some ((t * 1000) % 2 ^ 32))).2 with
      | none => none
      | some v =>
        if toUint32 v = SCE_KERNEL_OK then some 0
        else if toUint32 v = SCE_KERNEL_ERROR_WAIT_TIMEOUT then some SDL_MUTEX_TIMEDOUT
        else some (-1) := by
  unfold SDL_SemWaitTimeout
  simp only [if_neg ht]
  split
  · rfl
  · split_ifs <;> rfl

theorem SemWaitTimeout_kernel {κ : Type} (K : KernelOps κ) (s : SemState κ) (sem : SDL_sem)
    (t : Nat) (ht : t ≠ 0) :
    (SDL_SemWaitTimeout K s (some sem) t).1.kernel =
      (K.sceKernelWaitSema s.kernel sem.semid 1
        (if t = SDL_MUTEX_MAXWAIT then none else some ((t * 1000) % 2 ^ 32))).1 := by
  unfold SDL_SemWaitTimeout
  simp only [if_neg ht]
  split
  · rfl
  · split_ifs <;> rfl

theorem vitaKernel_wait_timeout (k : VitaKernel) (semid : Int) (v : KSema) (us : Nat)
    (h : k.find semid = some v) (h1 : v.currentCount < 1) (hmax : 1 ≤ v.maxCount) :
    vitaKernel.sceKernelWaitSema k semid 1 (some us)
      = (k, some (toInt32 SCE_KERNEL_ERROR_WAIT_TIMEOUT)) := by
  have h2 : ¬ v.maxCount < 1 := by omega
  have h3 : ¬ 1 ≤ v.currentCount := by omega
  simp [vitaKernel, h, h2, h3]

theorem SemWaitTimeout_vitaKernel_token (w : SemState VitaKernel) (sem : SDL_sem) (c : KSema)
    (t : Nat) (ht : t ≠ 0) (hfind : w.kernel.find sem.semid = some c)
    (hmax : 1 ≤ c.maxCount) (h1 : 1 ≤ c.currentCount) :
    (SDL_SemWaitTimeout vitaKernel w (some sem) t).2 = some 0 ∧
    (SDL_SemWaitTimeout vitaKernel w (some sem) t).1.kernel.find sem.semid
      = some { c with currentCount := c.currentCount - 1 } := by
  constructor
  · rw [SemWaitTimeout_wait _ _ _ _ ht, vitaKernel_wait_ok _ _ _ _ hfind h1 hmax]
    rfl
  · rw [SemWaitTimeout_kernel _ _ _ _ ht, vitaKernel_wait_ok _ _ _ _ hfind h1 hmax]
    exact VitaKernel.find_set _ _ _ _ hfind

theorem SemWaitTimeout_vitaKernel_empty (w : SemState VitaKernel) (sem : SDL_sem) (c : KSema)
    (t : Nat) (ht : t ≠ 0) (hfind : w.kernel.find sem.semid = some c)
    (hmax : 1 ≤ c.maxCount) (h1 : c.currentCount < 1) :
    (SDL_SemWaitTimeout vitaKernel w (some sem) t).2
      = (if t = SDL_MUTEX_MAXWAIT then none else some SDL_MUTEX_TIMEDOUT) ∧
    (SDL_SemWaitTimeout vitaKernel w (some sem) t).1.kernel = w.kernel := by
  by_cases hmw : t = SDL_MUTEX_MAXWAIT
  · have hk : vitaKernel.sceKernelWaitSema w.kernel sem.semid 1 none = (w.kernel, none) := by
      have h2 : ¬ c.maxCount < 1 := by omega
      have h3 : ¬ 1 ≤ c.currentCount := by omega
      simp [vitaKernel, hfind, h2, h3]
    constructor
    · rw [SemWaitTimeout_wait _ _ _ _ ht, if_pos hmw, hk, if_pos hmw]
    · rw [SemWaitTimeout_kernel _ _ _ _ ht, if_pos hmw, hk]
  · constructor
    · rw [SemWaitTimeout_wait _ _ _ _ ht, if_neg hmw,
        vitaKernel_wait_timeout _ _ _ _ hfind h1 hmax, if_neg hmw]
      rfl
    · rw [SemWaitTimeout_kernel _ _ _ _ ht, if_neg hmw,
        vitaKernel_wait_timeout _ _ _ _ hfind h1 hmax]

/-! ## The claims on waiting, posting, reading and creating a semaphore -/

/-- C17: for a semaphore that is not `NULL` and a timeout other than 0, when the kernel
wait answers the `int` value `v`, `SDL_SemWaitTimeout` returns 0 exactly when `v` is
`SCE_KERNEL_OK`, `SDL_MUTEX_TIMEDOUT` exactly when `v` is `SCE_KERNEL_ERROR_WAIT_TIMEOUT`
and -1 exactly when `v` is neither, and it leaves the kernel as the wait left it.  In
the reference kernel, a result 0 means one token was taken from the count and a result
`SDL_MUTEX_TIMEDOUT` means the kernel state, the count included, is unchanged. -/
theorem C17_wait_result (κ : Type) (K : KernelOps κ) (s : SemState κ) (sem : SDL_sem)
    (t : Nat) (v : Int) (ht : t ≠ 0)
    (hv : (K.sceKernelWaitSema s.kernel sem.semid 1
      (if t = SDL_MUTEX_MAXWAIT then none else some ((t * 1000) % 2 ^ 32))).2 = some v)
    (hlo : -2 ^ 31 ≤ v) (hhi : v < 2 ^ 31) :
    ((SDL_SemWaitTimeout K s (some sem) t).2 = some 0 ↔ v = 0) ∧
    ((SDL_SemWaitTimeout K s (some sem) t).2 = some SDL_MUTEX_TIMEDOUT
      ↔ v = toInt32 SCE_KERNEL_ERROR_WAIT_TIMEOUT) ∧
    ((SDL_SemWaitTimeout K s (some sem) t).2 = some (-1)
      ↔ (v ≠ 0 ∧ v ≠ toInt32 SCE_KERNEL_ERROR_WAIT_TIMEOUT)) ∧
    (SDL_SemWaitTimeout K s (some sem) t).1.kernel
      = (K.sceKernelWaitSema s.kernel sem.semid 1
          (if t = SDL_MUTEX_MAXWAIT then none else some ((t * 1000) % 2 ^ 32))).1 ∧
    (∀ (w : SemState VitaKernel) (c : KSema),
      w.kernel.find sem.semid = some c → 1 ≤ c.maxCount →
      ((SDL_SemWaitTimeout vitaKernel w (some sem) t).2 = some 0 →
        (SDL_SemWaitTimeout vitaKernel w (some sem) t).1.kernel.find sem.semid
          = some { c with currentCount := c.currentCount - 1 }) ∧
      ((SDL_SemWaitTimeout vitaKernel w (some sem) t).2 = some SDL_MUTEX_TIMEDOUT →
        (SDL_SemWaitTimeout vitaKernel w (some sem) t).1.kernel = w.kernel)) := by
  have hres := SemWaitTimeout_wait K s sem t ht
  rw [hv] at hres
  simp only at hres
  have h0 := toUint32_eq_zero_iff v hlo hhi
  have h1 := toUint32_eq_timeout_iff v hlo hhi
  have hne : toInt32 SCE_KERNEL_ERROR_WAIT_TIMEOUT ≠ 0 := by decide
  have ha : v = 0 → (SDL_SemWaitTimeout K s (some sem) t).2 = some 0 := by
    intro hv0
    rw [hres, if_pos (h0.mpr hv0)]
  have hb : v = toInt32 SCE_KERNEL_ERROR_WAIT_TIMEOUT →
      (SDL_SemWaitTimeout K s (some sem) t).2 = some SDL_MUTEX_TIMEDOUT := by
    intro hvt
    have hv0 : v ≠ 0 := by rw [hvt]; exact hne
    rw [hres, if_neg (fun h => hv0 (h0.mp h)), if_pos (h1.mpr hvt)]
  have hc : v ≠ 0 → v ≠ toInt32 SCE_KERNEL_ERROR_WAIT_TIMEOUT →
      (SDL_SemWaitTimeout K s (some sem) t).2 = some (-1) := by
    intro hv0 hvt
    rw [hres, if_neg (fun h => hv0 (h0.mp h)), if_neg (fun h => hvt (h1.mp h))]
  have d01 : (some 0 : Option Int) ≠ some SDL_MUTEX_TIMEDOUT := by decide
  have d0m : (some 0 : Option Int) ≠ some (-1) := by decide
  have d1m : (some SDL_MUTEX_TIMEDOUT : Option Int) ≠ some (-1) := by decide
  refine ⟨⟨?_, ha⟩, ⟨?_, hb⟩, ⟨?_, fun h => hc h.1 h.2⟩,
    SemWaitTimeout_kernel K s sem t ht, ?_⟩
  · intro h
    by_contra hv0
    by_cases hvt : v = toInt32 SCE_KERNEL_ERROR_WAIT_TIMEOUT
    · rw [hb hvt] at h; exact d01 h.symm
    · rw [hc hv0 hvt] at h; exact d0m h.symm
  · intro h
    by_contra hvt
    by_cases hv0 : v = 0
    · rw [ha hv0] at h; exact d01 h
    · rw [hc hv0 hvt] at h; exact d1m h.symm
  · intro h
    constructor
    · intro hv0
      rw [ha hv0] at h; exact d0m h
    · intro hvt
      rw [hb hvt] at h; exact d1m h
  · intro w c hfind hmax
    by_cases hc1 : 1 ≤ c.currentCount
    · obtain ⟨hr, hk⟩ := SemWaitTimeout_vitaKernel_token w sem c t ht hfind hmax hc1
      refine ⟨fun _ => hk, fun h => ?_⟩
      rw [hr] at h
      exact absurd h d01
    · obtain ⟨hr, hk⟩ := SemWaitTimeout_vitaKernel_empty w sem c t ht hfind hmax (by omega)
      refine ⟨fun h => ?_, fun _ => hk⟩
      rw [hr] at h
      split_ifs at h
      exact absurd h.symm d01

/-- Witness for C17: the reference kernel, a semaphore created with count 0 and a wait
of 100 ms, which the kernel answers with `SCE_KERNEL_ERROR_WAIT_TIMEOUT`. -/
theorem C17_wait_result_witness :
    (100 : Nat) ≠ 0 ∧
    (SDL_SemWaitTimeout vitaKernel (SDL_CreateSemaphore vitaKernel SemState.start 0 true).1
      (some { semid := 1 }) 100).2 = some SDL_MUTEX_TIMEDOUT :=
  ⟨by decide,
    (C17_wait_result VitaKernel vitaKernel
      (SDL_CreateSemaphore vitaKernel SemState.start 0 true).1 { semid := 1 } 100
      (toInt32 SCE_KERNEL_ERROR_WAIT_TIMEOUT) (by decide) (by decide) (by decide)
      (by decide)).2.1.mpr rfl⟩

theorem SemPost_eq {κ : Type} (K : KernelOps κ) (s : SemState κ) (sem : SDL_sem) :
    SDL_SemPost K s (some sem) =
      if (K.sceKernelSignalSema s.kernel sem.semid 1).2 < 0 then
        ((s.call (SemCall.sceKernelSignalSema sem.semid 1)
          (K.sceKernelSignalSema s.kernel sem.semid 1).1).setError
            "sceKernelSignalSema() failed", -1)
      else
        (s.call (SemCall.sceKernelSignalSema sem.semid 1)
          (K.sceKernelSignalSema s.kernel sem.semid 1).1, 0) := by
  simp only [SDL_SemPost]

theorem vitaKernel_signal (k : VitaKernel) (semid : Int) (c : KSema)
    (h : k.find semid = some c) :
    vitaKernel.sceKernelSignalSema k semid 1 =
      if c.maxCount < c.currentCount + 1 then (k, SCE_KERNEL_ERROR_SEMA_OVF)
      else (k.set semid { c with currentCount := c.currentCount + 1 }, 0) := by
  simp [vitaKernel, h]

/-- C18: for a semaphore that is not `NULL`, `SDL_SemPost` makes one kernel call,
`sceKernelSignalSema(semid, 1)`, and returns 0 exactly when the kernel answers a value
`>= 0` and -1 exactly when it answers a negative value, leaving the kernel as the
signal left it.  In the reference kernel a result 0 leaves the count one higher and a
result -1 leaves the kernel state, the count included, unchanged. -/
theorem C18_post_signals_one (κ : Type) (K : KernelOps κ) (s : SemState κ) (sem : SDL_sem) :
    (SDL_SemPost K s (some sem)).1.calls
      = s.calls ++ [SemCall.sceKernelSignalSema sem.semid 1] ∧
    ((SDL_SemPost K s (some sem)).2 = 0
      ↔ 0 ≤ (K.sceKernelSignalSema s.kernel sem.semid 1).2) ∧
    ((SDL_SemPost K s (some sem)).2 = -1
      ↔ (K.sceKernelSignalSema s.kernel sem.semid 1).2 < 0) ∧
    (SDL_SemPost K s (some sem)).1.kernel = (K.sceKernelSignalSema s.kernel sem.semid 1).1 ∧
    (∀ (w : SemState VitaKernel) (c : KSema), w.kernel.find sem.semid = some c →
      ((SDL_SemPost vitaKernel w (some sem)).2 = 0 →
        (SDL_SemPost vitaKernel w (some sem)).1.kernel.find sem.semid
          = some { c with currentCount := c.currentCount + 1 }) ∧
      ((SDL_SemPost vitaKernel w (some sem)).2 = -1 →
        (SDL_SemPost vitaKernel w (some sem)).1.kernel = w.kernel)) := by
  refine ⟨?_, ?_, ?_, ?_, ?_⟩
  · rw [SemPost_eq]
    split_ifs <;> rfl
  · rw [SemPost_eq]
    split_ifs with h
    · simp only [show ((-1 : Int) = 0) = False from by decide, false_iff, not_le]
      exact h
    · simp only [true_iff]
      exact not_lt.mp h
  · rw [SemPost_eq]
    split_ifs with h
    · simp only [true_iff]
      exact h
    · simp only [show ((0 : Int) = -1) = False from by decide, false_iff]
      exact h
  · rw [SemPost_eq]
    split_ifs <;> rfl
  · intro w c hfind
    have hov : SCE_KERNEL_ERROR_SEMA_OVF < 0 := by decide
    rw [SemPost_eq, vitaKernel_signal _ _ _ hfind]
    have hm10 : ¬ ((-1 : Int) = 0) := by decide
    have h0m1 : ¬ ((0 : Int) = -1) := by decide
    have h00 : ¬ ((0 : Int) < 0) := by decide
    by_cases hfull : c.maxCount < c.currentCount + 1
    · rw [if_pos hfull, if_pos hov]
      exact ⟨fun h => absurd h hm10, fun _ => rfl⟩
    · rw [if_neg hfull, if_neg h00]
      exact ⟨fun _ => VitaKernel.find_set _ _ _ _ hfind, fun h => absurd h h0m1⟩

/-- Witness for C18: the reference kernel and a semaphore created with count 3; the
post returns 0 and the count is 4. -/
theorem C18_post_signals_one_witness :
    (SDL_CreateSemaphore vitaKernel SemState.start 3 true).1.kernel.find 1
      = some { currentCount := 3, maxCount := 255 } ∧
    (SDL_SemPost vitaKernel (SDL_CreateSemaphore vitaKernel SemState.start 3 true).1
      (some { semid := 1 })).2 = 0 ∧
    (SDL_SemPost vitaKernel (SDL_CreateSemaphore vitaKernel SemState.start 3 true).1
      (some { semid := 1 })).1.kernel.find 1 = some { currentCount := 4, maxCount := 255 } :=
  ⟨by decide, by decide,
    ((C18_post_signals_one VitaKernel vitaKernel
      (SDL_CreateSemaphore vitaKernel SemState.start 3 true).1 { semid := 1 }).2.2.2.2
      (SDL_CreateSemaphore vitaKernel SemState.start 3 true).1
      { currentCount := 3, maxCount := 255 } (by decide)).1 (by decide)⟩

theorem vitaKernel_getInfo_kernel (k : VitaKernel) (semid : Int) :
    (vitaKernel.sceKernelGetSemaInfo k semid).1 = k := by
  simp only [vitaKernel]
  split <;> rfl

theorem toUint32_of_nonneg (c : Int) (h0 : 0 ≤ c) (h1 : c < 2 ^ 32) :
    ((toUint32 c : Nat) : Int) = c := by
  unfold toUint32
  omega

/-- C19: for a semaphore that is not `NULL`, `SDL_SemValue` makes one kernel call, the
query `sceKernelGetSemaInfo(semid, &info)`, and returns `info.currentCount` if the
query answers a value `>= 0` and 0 otherwise; for `NULL` it returns 0 and makes no call.
It leaves the kernel as the query left it and sets no error, and in the reference kernel
the query leaves the kernel state as it was, so no count changes; there the value
returned for an existing semaphore is its count. -/
theorem C19_SemValue_observes (κ : Type) (K : KernelOps κ) (s : SemState κ) (sem : SDL_sem) :
    (SDL_SemValue K s (some sem)).2
      = (if 0 ≤ (K.sceKernelGetSemaInfo s.kernel sem.semid).2.1
          then toUint32 (K.sceKernelGetSemaInfo s.kernel sem.semid).2.2 else 0) ∧
    (SDL_SemValue K s (some sem)).1.calls
      = s.calls ++ [SemCall.sceKernelGetSemaInfo sem.semid] ∧
    (SDL_SemValue K s (some sem)).1.kernel = (K.sceKernelGetSemaInfo s.kernel sem.semid).1 ∧
    (SDL_SemValue K s (some sem)).1.error = s.error ∧
    ((SDL_SemValue K s none).2 = 0 ∧ (SDL_SemValue K s none).1.calls = s.calls ∧
      (SDL_SemValue K s none).1.kernel = s.kernel) ∧
    (∀ (w : SemState VitaKernel) (o : Option SDL_sem),
      (SDL_SemValue vitaKernel w o).1.kernel = w.kernel) ∧
    (∀ (w : SemState VitaKernel) (c : KSema), w.kernel.find sem.semid = some c →
      0 ≤ c.currentCount → c.currentCount < 2 ^ 32 →
      (((SDL_SemValue vitaKernel w (some sem)).2 : Nat) : Int) = c.currentCount) := by
  refine ⟨?_, ?_, ?_, ?_, ⟨rfl, rfl, rfl⟩, ?_, ?_⟩
  · simp only [SDL_SemValue]
    split_ifs <;> rfl
  · simp only [SDL_SemValue]
    split_ifs <;> rfl
  · simp only [SDL_SemValue]
    split_ifs <;> rfl
  · simp only [SDL_SemValue]
    split_ifs <;> rfl
  · intro w o
    cases o with
    | none => rfl
    | some sm =>
      simp only [SDL_SemValue]
      split_ifs <;> exact vitaKernel_getInfo_kernel _ _
  · intro w c hfind h0 h1
    rw [SemValue_vitaKernel w sem c hfind]
    exact toUint32_of_nonneg _ h0 h1

/-- Witness for C19: the reference kernel and a semaphore created with count 3. -/
theorem C19_SemValue_observes_witness :
    (SDL_CreateSemaphore vitaKernel SemState.start 3 true).1.kernel.find 1
      = some { currentCount := 3, maxCount := 255 } ∧
    (((SDL_SemValue vitaKernel (SDL_CreateSemaphore vitaKernel SemState.start 3 true).1
      (some { semid := 1 })).2 : Nat) : Int) = 3 :=
  ⟨by decide,
    (C19_SemValue_observes VitaKernel vitaKernel
      (SDL_CreateSemaphore vitaKernel SemState.start 3 true).1 { semid := 1 }).2.2.2.2.2.2
      (SDL_CreateSemaphore vitaKernel SemState.start 3 true).1
      { currentCount := 3, maxCount := 255 } (by decide) (by decide) (by decide)⟩

theorem CreateSemaphore_malloc_failed {κ : Type} (K : KernelOps κ) (s : SemState κ) (n : Nat) :
    SDL_CreateSemaphore K s n false
      = ((s.call (SemCall.SDL_malloc false) s.kernel).setError "Out of memory", none) := by
  simp [SDL_CreateSemaphore]

theorem CreateSemaphore_malloc_ok {κ : Type} (K : KernelOps κ) (s : SemState κ) (n : Nat) :
    SDL_CreateSemaphore K s n true =
      if (K.sceKernelCreateSema s.kernel "SDL sema" 0 (toInt32 n) 255 0).2 < 0 then
        ((((s.call (SemCall.SDL_malloc true) s.kernel).call
            (SemCall.sceKernelCreateSema "SDL sema" 0 (toInt32 n) 255 0)
            (K.sceKernelCreateSema s.kernel "SDL sema" 0 (toInt32 n) 255 0).1).setError
            "Couldn't create semaphore").call SemCall.free
            (K.sceKernelCreateSema s.kernel "SDL sema" 0 (toInt32 n) 255 0).1, none)
      else
        ((s.call (SemCall.SDL_malloc true) s.kernel).call
            (SemCall.sceKernelCreateSema "SDL sema" 0 (toInt32 n) 255 0)
            (K.sceKernelCreateSema s.kernel "SDL sema" 0 (toInt32 n) 255 0).1,
          some { semid := (K.sceKernelCreateSema s.kernel "SDL sema" 0 (toInt32 n) 255 0).2 }) := by
  simp only [SDL_CreateSemaphore, SemState.call, SemState.setError]
  split_ifs <;> simp_all

theorem vitaKernel_create_rejected (k : VitaKernel) (n : Nat) (hn : n < 2 ^ 32) (h : 255 < n) :
    vitaKernel.sceKernelCreateSema k "SDL sema" 0 (toInt32 n) 255 0
      = (k, SCE_KERNEL_ERROR_ILLEGAL_COUNT) := by
  have hc : toInt32 n < 0 ∨ 255 < toInt32 n := by
    unfold toInt32
    omega
  simp only [vitaKernel]
  rw [if_pos (Or.inr hc)]

theorem vitaKernel_create_accepted (k : VitaKernel) (n : Nat) (h : n ≤ 255) :
    vitaKernel.sceKernelCreateSema k "SDL sema" 0 (toInt32 n) 255 0
      = ({ semas := (k.nextUid, { currentCount := (n : Int), maxCount := 255 }) :: k.semas,
           nextUid := k.nextUid + 1 }, k.nextUid) := by
  have he : toInt32 n = (n : Int) := by
    unfold toInt32
    omega
  have hc : ¬ ((255 : Int) ≤ 0 ∨ (n : Int) < 0 ∨ (255 : Int) < (n : Int)) := by omega
  simp only [vitaKernel]
  rw [he, if_neg hc]

/-- In the reference kernel, with identifiers `>= 0`, `SDL_CreateSemaphore(n)` for a
`Uint32` count `n` either returns `NULL`, with the kernel as before and the wrapper
freed if it was allocated, or returns a semaphore whose kernel semaphore has count `n`
and on which `SDL_SemValue` is `n`. -/
theorem CreateSemaphore_vitaKernel (s : SemState VitaKernel) (n : Nat) (mallocOk : Bool)
    (hn : n < 2 ^ 32) (huid : 0 ≤ s.kernel.nextUid) :
    ((SDL_CreateSemaphore vitaKernel s n mallocOk).2 = none ∧
      (mallocOk = false ∨ 255 < n) ∧
      (SDL_CreateSemaphore vitaKernel s n mallocOk).1.kernel = s.kernel ∧
      (SDL_CreateSemaphore vitaKernel s n mallocOk).1.calls = s.calls ++
        (if mallocOk = true then
          [SemCall.SDL_malloc true,
           SemCall.sceKernelCreateSema "SDL sema" 0 (toInt32 n) 255 0, SemCall.free]
        else [SemCall.SDL_malloc false])) ∨
    (mallocOk = true ∧ n ≤ 255 ∧
      (SDL_CreateSemaphore vitaKernel s n mallocOk).2 = some { semid := s.kernel.nextUid } ∧
      (SDL_CreateSemaphore vitaKernel s n mallocOk).1.calls = s.calls ++
        [SemCall.SDL_malloc true, SemCall.sceKernelCreateSema "SDL sema" 0 (n : Int) 255 0] ∧
      (SDL_CreateSemaphore vitaKernel s n mallocOk).1.kernel.find s.kernel.nextUid
        = some { currentCount := (n : Int), maxCount := 255 } ∧
      (SDL_SemValue vitaKernel (SDL_CreateSemaphore vitaKernel s n mallocOk).1
        (SDL_CreateSemaphore vitaKernel s n mallocOk).2).2 = n) := by
  cases mallocOk with
  | false =>
    left
    rw [CreateSemaphore_malloc_failed]
    exact ⟨rfl, Or.inl rfl, rfl, by simp [SemState.call, SemState.setError]⟩
  | true =>
    by_cases h : n ≤ 255
    · right
      have he : toInt32 n = (n : Int) := by
        unfold toInt32
        omega
      have hfind : (SDL_CreateSemaphore vitaKernel s n true).1.kernel.find s.kernel.nextUid
          = some { currentCount := (n : Int), maxCount := 255 } := by
        rw [CreateSemaphore_malloc_ok, vitaKernel_create_accepted _ _ h,
          if_neg (not_lt.mpr huid)]
        simp [SemState.call, VitaKernel.find]
      have hsem : (SDL_CreateSemaphore vitaKernel s n true).2
          = some { semid := s.kernel.nextUid } := by
        rw [CreateSemaphore_malloc_ok, vitaKernel_create_accepted _ _ h,
          if_neg (not_lt.mpr huid)]
      refine ⟨rfl, h, hsem, ?_, hfind, ?_⟩
      · rw [CreateSemaphore_malloc_ok, vitaKernel_create_accepted _ _ h,
          if_neg (not_lt.mpr huid), he]
        simp [SemState.call]
      · rw [hsem, SemValue_vitaKernel _ { semid := s.kernel.nextUid } _ hfind]
        show toUint32 ((n : Nat) : Int) = n
        unfold toUint32
        omega
    · left
      have hrej := vitaKernel_create_rejected s.kernel n hn (by omega)
      have hneg : SCE_KERNEL_ERROR_ILLEGAL_COUNT < 0 := by decide
      rw [CreateSemaphore_malloc_ok, hrej, if_pos hneg]
      exact ⟨rfl, Or.inr (by omega), rfl, by simp [SemState.call, SemState.setError]⟩

/-- C20: for every kernel and every initial count `n`, `SDL_CreateSemaphore(n)` returns
`NULL` exactly when `SDL_malloc` fails (then no kernel call is made) or the kernel
answers `sceKernelCreateSema("SDL sema", 0, n, 255, 0)` with a negative value (then the
wrapper is freed); otherwise it returns the semaphore of the identifier the kernel
answered, after exactly that one creation call, whose initial count is `n` itself for
`n < 2 ^ 31`.  In the reference kernel, with identifiers `>= 0` and `n` a `Uint32`, a
`NULL` result leaves the kernel as it was, and on the semaphore returned the kernel
count and `SDL_SemValue` are `n`. -/
theorem C20_create (κ : Type) (K : KernelOps κ) (s : SemState κ) (n : Nat) :
    ((SDL_CreateSemaphore K s n false).2 = none ∧
      (SDL_CreateSemaphore K s n false).1.calls = s.calls ++ [SemCall.SDL_malloc false] ∧
      (SDL_CreateSemaphore K s n false).1.kernel = s.kernel) ∧
    (SDL_CreateSemaphore K s n true).2
      = (if (K.sceKernelCreateSema s.kernel "SDL sema" 0 (toInt32 n) 255 0).2 < 0 then none
          else some { semid := (K.sceKernelCreateSema s.kernel "SDL sema" 0 (toInt32 n) 255 0).2 }) ∧
    (SDL_CreateSemaphore K s n true).1.calls = s.calls ++
      (if (K.sceKernelCreateSema s.kernel "SDL sema" 0 (toInt32 n) 255 0).2 < 0 then
        [SemCall.SDL_malloc true,
         SemCall.sceKernelCreateSema "SDL sema" 0 (toInt32 n) 255 0, SemCall.free]
      else
        [SemCall.SDL_malloc true,
         SemCall.sceKernelCreateSema "SDL sema" 0 (toInt32 n) 255 0]) ∧
    (SDL_CreateSemaphore K s n true).1.kernel
      = (K.sceKernelCreateSema s.kernel "SDL sema" 0 (toInt32 n) 255 0).1 ∧
    (n < 2 ^ 31 → toInt32 n = (n : Int)) ∧
    (∀ (w : SemState VitaKernel) (mallocOk : Bool), n < 2 ^ 32 → 0 ≤ w.kernel.nextUid →
      ((SDL_CreateSemaphore vitaKernel w n mallocOk).2 = none ∧
        (mallocOk = false ∨ 255 < n) ∧
        (SDL_CreateSemaphore vitaKernel w n mallocOk).1.kernel = w.kernel ∧
        (SDL_CreateSemaphore vitaKernel w n mallocOk).1.calls = w.calls ++
          (if mallocOk = true then
            [SemCall.SDL_malloc true,
             SemCall.sceKernelCreateSema "SDL sema" 0 (toInt32 n) 255 0, SemCall.free]
          else [SemCall.SDL_malloc false])) ∨
      (mallocOk = true ∧ n ≤ 255 ∧
        (SDL_CreateSemaphore vitaKernel w n mallocOk).2 = some { semid := w.kernel.nextUid } ∧
        (SDL_CreateSemaphore vitaKernel w n mallocOk).1.calls = w.calls ++
          [SemCall.SDL_malloc true, SemCall.sceKernelCreateSema "SDL sema" 0 (n : Int) 255 0] ∧
        (SDL_CreateSemaphore vitaKernel w n mallocOk).1.kernel.find w.kernel.nextUid
          = some { currentCount := (n : Int), maxCount := 255 } ∧
        (SDL_SemValue vitaKernel (SDL_CreateSemaphore vitaKernel w n mallocOk).1
          (SDL_CreateSemaphore vitaKernel w n mallocOk).2).2 = n)) := by
  refine ⟨?_, ?_, ?_, ?_, ?_, ?_⟩
  · rw [CreateSemaphore_malloc_failed]
    exact ⟨rfl, by simp [SemState.call, SemState.setError], rfl⟩
  · rw [CreateSemaphore_malloc_ok]
    split_ifs <;> rfl
  · rw [CreateSemaphore_malloc_ok]
    split_ifs <;> simp [SemState.call, SemState.setError]
  · rw [CreateSemaphore_malloc_ok]
    split_ifs <;> rfl
  · intro hn
    unfold toInt32
    omega
  · intro w mallocOk hn huid
    exact CreateSemaphore_vitaKernel w n mallocOk hn huid

/-- Witness for C20: `SDL_CreateSemaphore(3)` in the reference kernel with no semaphore
yet; the semaphore returned has identifier 1 and reads 3. -/
theorem C20_create_witness :
    (3 : Nat) < 2 ^ 32 ∧ (0 : Int) ≤ SemState.start.kernel.nextUid ∧
    (SDL_CreateSemaphore vitaKernel SemState.start 3 true).2 = some { semid := 1 } ∧
    ((SDL_CreateSemaphore vitaKernel SemState.start 3 true).2 = none ∨
      (SDL_SemValue vitaKernel (SDL_CreateSemaphore vitaKernel SemState.start 3 true).1
        (SDL_CreateSemaphore vitaKernel SemState.start 3 true).2).2 = 3) :=
  ⟨by decide, by decide,
    ((C20_create VitaKernel vitaKernel SemState.start 3).2.1).trans (by decide),
    ((C20_create VitaKernel vitaKernel SemState.start 3).2.2.2.2.2
      SemState.start true (by decide) (by decide)).imp
      (fun h => h.1) (fun h => h.2.2.2.2.2)⟩

/-! ## Lemmas on the sizes and addresses computed by `PSP2AUD_OpenAudio` -/

theorem OpenAudio_samples_mod64 (s : AudioState) (mr : Nat) (pr : Int)
    (hs : s.dev.spec.samples < 2 ^ 16) :
    (PSP2AUD_OpenAudio s mr pr).1.dev.spec.samples % 64 = 0 := by
  rw [OpenAudio_samples_eq s mr pr hs]
  split_ifs <;> omega

theorem OpenAudio_size_mod64 (s : AudioState) (mr : Nat) (pr : Int)
    (hc : s.dev.spec.channels < 2 ^ 8) (hs : s.dev.spec.samples < 2 ^ 16) :
    (PSP2AUD_OpenAudio s mr pr).1.dev.spec.size % 64 = 0 := by
  rw [(OpenAudio_size_exact s mr pr hc hs).1]
  have h := Nat.dvd_of_mod_eq_zero (OpenAudio_samples_mod64 s mr pr hs)
  exact Nat.mod_eq_zero_of_dvd (Dvd.dvd.mul_left h _)

theorem OpenAudio_size_le (s : AudioState) (mr : Nat) (pr : Int)
    (hc : s.dev.spec.channels < 2 ^ 8) (hs : s.dev.spec.samples < 2 ^ 16) :
    (PSP2AUD_OpenAudio s mr pr).1.dev.spec.size ≤ 31 * 255 * 65472 := by
  obtain ⟨h1, h2⟩ := OpenAudio_size_exact s mr pr hc hs
  rw [h1]
  exact h2

theorem mixlen_exact (x : Nat) (hx : x ≤ 31 * 255 * 65472) :
    toInt32 (((x * NUM_BUFFERS) % 2 ^ 32 : Nat) : Int) = ((x * NUM_BUFFERS : Nat) : Int) ∧
    toUint32 (toInt32 (((x * NUM_BUFFERS) % 2 ^ 32 : Nat) : Int)) = x * NUM_BUFFERS := by
  have e : x * NUM_BUFFERS = x * 2 := rfl
  rw [e]
  unfold toUint32 toInt32
  constructor <;> omega

theorem OpenAudio_calls_exact (s : AudioState) (mr : Nat) (pr : Int)
    (hc : s.dev.spec.channels < 2 ^ 8) (hs : s.dev.spec.samples < 2 ^ 16) :
    (PSP2AUD_OpenAudio s mr pr).1.calls = s.calls ++
      (if mr = 0 then
        [HwCall.memalign 64 ((PSP2AUD_OpenAudio s mr pr).1.dev.spec.size * NUM_BUFFERS) 0]
      else
        [HwCall.memalign 64 ((PSP2AUD_OpenAudio s mr pr).1.dev.spec.size * NUM_BUFFERS) mr,
         HwCall.sceAudioOutOpenPort SCE_AUDIO_OUT_PORT_TYPE_MAIN
          (PSP2AUD_OpenAudio s mr pr).1.dev.spec.samples 48000
          (if s.dev.spec.channels = 1 then SCE_AUDIO_OUT_MODE_MONO
            else SCE_AUDIO_OUT_MODE_STEREO) pr,
         if pr < 0 then HwCall.free mr
         else HwCall.memset mr 0
          ((PSP2AUD_OpenAudio s mr pr).1.dev.spec.size * NUM_BUFFERS)]) := by
  have h := OpenAudio_calls s mr pr
  rw [(mixlen_exact _ (OpenAudio_size_le s mr pr hc hs)).2] at h
  exact h

theorem OpenAudio_mem (s : AudioState) (mr : Nat) (pr : Int) (hm : mr ≠ 0) (hp : 0 ≤ pr) :
    (PSP2AUD_OpenAudio s mr pr).1.mem = fun a =>
      if mr ≤ a ∧ a < mr + toUint32 (toInt32
          (((PSP2AUD_OpenAudio s mr pr).1.dev.spec.size * NUM_BUFFERS) % 2 ^ 32 : Nat))
      then 0 else s.mem a := by
  unfold PSP2AUD_OpenAudio
  simp only [AudioState.setSpec, AudioState.setHidden, AudioState.call, AudioState.setError]
  rw [if_neg hm, if_neg (not_lt.mpr hp)]

/-! ## The claims on the port request, the sizes and the slots -/

/-- C22: when the allocation succeeds, `PSP2AUD_OpenAudio` makes exactly one
`sceAudioOutOpenPort` call (between the `memalign` and the `free` or `memset`), for the
main port, with the stored sample count, which is a multiple of 64, the rate 48000, and
the mode `SCE_AUDIO_OUT_MODE_MONO` if the channel count is 1 and
`SCE_AUDIO_OUT_MODE_STEREO`, a different mode, otherwise. -/
theorem C22_port_request (s : AudioState) (memalignRes : Nat) (openPortRes : Int)
    (hm : memalignRes ≠ 0) (hs : s.dev.spec.samples < 2 ^ 16) :
    (PSP2AUD_OpenAudio s memalignRes openPortRes).1.calls = s.calls ++
      [HwCall.memalign 64
        (toUint32 (toInt32 (((PSP2AUD_OpenAudio s memalignRes openPortRes).1.dev.spec.size
          * NUM_BUFFERS) % 2 ^ 32 : Nat))) memalignRes,
       HwCall.sceAudioOutOpenPort SCE_AUDIO_OUT_PORT_TYPE_MAIN
        (PSP2AUD_OpenAudio s memalignRes openPortRes).1.dev.spec.samples 48000
        (if s.dev.spec.channels = 1 then SCE_AUDIO_OUT_MODE_MONO
          else SCE_AUDIO_OUT_MODE_STEREO) openPortRes,
       if openPortRes < 0 then HwCall.free memalignRes
       else HwCall.memset memalignRes 0
        (toUint32 (toInt32 (((PSP2AUD_OpenAudio s memalignRes openPortRes).1.dev.spec.size
          * NUM_BUFFERS) % 2 ^ 32 : Nat)))] ∧
    (PSP2AUD_OpenAudio s memalignRes openPortRes).1.dev.spec.samples
      = SCE_AUDIO_SAMPLE_ALIGN s.dev.spec.samples % 2 ^ 16 ∧
    (PSP2AUD_OpenAudio s memalignRes openPortRes).1.dev.spec.samples % 64 = 0 ∧
    (PSP2AUD_OpenAudio s memalignRes openPortRes).1.dev.spec.freq = 48000 ∧
    SCE_AUDIO_OUT_MODE_MONO ≠ SCE_AUDIO_OUT_MODE_STEREO := by
  refine ⟨?_, OpenAudio_samples s memalignRes openPortRes,
    OpenAudio_samples_mod64 s memalignRes openPortRes hs,
    OpenAudio_freq s memalignRes openPortRes, by decide⟩
  rw [OpenAudio_calls, if_neg hm]

/-- Witness for C22: a mono request of 100 frames with the allocation at 4096; the port
is asked for 128 frames at 48000 Hz in the mono mode. -/
theorem C22_port_request_witness :
    (4096 : Nat) ≠ 0 ∧ (AudioState.request 44100 AUDIO_S16LSB 1 100).dev.spec.samples < 2 ^ 16 ∧
    (PSP2AUD_OpenAudio (AudioState.request 44100 AUDIO_S16LSB 1 100) 4096 3).1.calls
      = [HwCall.memalign 64 512 4096,
         HwCall.sceAudioOutOpenPort SCE_AUDIO_OUT_PORT_TYPE_MAIN 128 48000
          SCE_AUDIO_OUT_MODE_MONO 3,
         HwCall.memset 4096 0 512] :=
  ⟨by decide, by decide,
    ((C22_port_request (AudioState.request 44100 AUDIO_S16LSB 1 100) 4096 3
      (by decide) (by decide)).1).trans (by decide)⟩

/-- C23: for every format, every channel count (a `Uint8`) and every requested sample
count (a `Uint16`), the slot size `this->spec.size` computed by `PSP2AUD_OpenAudio` is a
multiple of 64, and so is the total size `size * NUM_BUFFERS`, which is the size given
to `memalign(64, ·)`, the first outside call. -/
theorem C23_sizes_multiple_of_64 (s : AudioState) (memalignRes : Nat) (openPortRes : Int)
    (hc : s.dev.spec.channels < 2 ^ 8) (hs : s.dev.spec.samples < 2 ^ 16) :
    (PSP2AUD_OpenAudio s memalignRes openPortRes).1.dev.spec.size % 64 = 0 ∧
    ((PSP2AUD_OpenAudio s memalignRes openPortRes).1.dev.spec.size * NUM_BUFFERS) % 64 = 0 ∧
    ((PSP2AUD_OpenAudio s memalignRes openPortRes).1.calls.drop s.calls.length).head?
      = some (HwCall.memalign 64
          ((PSP2AUD_OpenAudio s memalignRes openPortRes).1.dev.spec.size * NUM_BUFFERS)
          memalignRes) := by
  have h64 := OpenAudio_size_mod64 s memalignRes openPortRes hc hs
  refine ⟨h64, ?_, ?_⟩
  · have e : (PSP2AUD_OpenAudio s memalignRes openPortRes).1.dev.spec.size * NUM_BUFFERS
        = (PSP2AUD_OpenAudio s memalignRes openPortRes).1.dev.spec.size * 2 := rfl
    rw [e]
    omega
  · rw [OpenAudio_calls_exact s memalignRes openPortRes hc hs, List.drop_left]
    by_cases hm : memalignRes = 0
    · subst hm
      simp
    · rw [if_neg hm]
      simp

/-- Witness for C23: 16-bit stereo with 100 frames requested; the slot size is 512 and
the allocation 1024 bytes. -/
theorem C23_sizes_multiple_of_64_witness :
    (AudioState.request 44100 AUDIO_S16LSB 2 100).dev.spec.channels < 2 ^ 8 ∧
    (AudioState.request 44100 AUDIO_S16LSB 2 100).dev.spec.samples < 2 ^ 16 ∧
    (PSP2AUD_OpenAudio (AudioState.request 44100 AUDIO_S16LSB 2 100) 4096 3).1.dev.spec.size
      = 512 ∧
    (PSP2AUD_OpenAudio (AudioState.request 44100 AUDIO_S16LSB 2 100) 4096 3).1.dev.spec.size
      % 64 = 0 :=
  ⟨by decide, by decide, by decide,
    (C23_sizes_multiple_of_64 (AudioState.request 44100 AUDIO_S16LSB 2 100) 4096 3
      (by decide) (by decide)).1⟩

theorem OpenAudio_mixbufs (s : AudioState) (mr : Nat) (pr : Int) (hm : mr ≠ 0) (hp : 0 ≤ pr)
    (i : Fin NUM_BUFFERS) :
    (PSP2AUD_OpenAudio s mr pr).1.dev.hidden.mixbufs i
      = mr + i.val * (PSP2AUD_OpenAudio s mr pr).1.dev.spec.size := by
  have hlt := OpenAudio_size_lt s mr pr
  have hh := OpenAudio_hidden s mr pr hm hp
  have hi : i.val * (PSP2AUD_OpenAudio s mr pr).1.dev.spec.size < 2 ^ 32 := by
    have h2 : i.val ≤ 1 := by
      have hlt2 : i.val < 2 := i.isLt
      omega
    calc i.val * (PSP2AUD_OpenAudio s mr pr).1.dev.spec.size
        ≤ 1 * (PSP2AUD_OpenAudio s mr pr).1.dev.spec.size := Nat.mul_le_mul_right _ h2
      _ = (PSP2AUD_OpenAudio s mr pr).1.dev.spec.size := Nat.one_mul _
      _ < 2 ^ 32 := hlt
  have hmb : (PSP2AUD_OpenAudio s mr pr).1.dev.hidden.mixbufs i
      = setMixbufs mr (PSP2AUD_OpenAudio s mr pr).1.dev.spec.size s.dev.hidden.mixbufs i := by
    rw [hh]
  rw [hmb, setMixbufs_apply, Nat.mod_eq_of_lt hi]

/-- C24: after a successful `PSP2AUD_OpenAudio` (channel count a `Uint8`, requested
sample count a `Uint16`), `rawbuf` is the pointer `memalign` returned, the allocation
asked for has `mixlen = spec.size * NUM_BUFFERS` bytes, every slot pointer `mixbufs[i]`
is `rawbuf + i * spec.size`, every slot `[mixbufs[i], mixbufs[i] + spec.size)` lies
inside `[rawbuf, rawbuf + mixlen)`, and of two slots with different indices one ends
where or before the other starts. -/
theorem C24_slots_partition_allocation (s : AudioState) (memalignRes : Nat)
    (openPortRes : Int)
    (hok : (PSP2AUD_OpenAudio s memalignRes openPortRes).2 = 0)
    (hc : s.dev.spec.channels < 2 ^ 8) (hs : s.dev.spec.samples < 2 ^ 16) :
    (PSP2AUD_OpenAudio s memalignRes openPortRes).1.dev.hidden.rawbuf = memalignRes ∧
    ((PSP2AUD_OpenAudio s memalignRes openPortRes).1.calls.drop s.calls.length).head?
      = some (HwCall.memalign 64
          ((PSP2AUD_OpenAudio s memalignRes openPortRes).1.dev.spec.size * NUM_BUFFERS)
          memalignRes) ∧
    (∀ i : Fin NUM_BUFFERS,
      (PSP2AUD_OpenAudio s memalignRes openPortRes).1.dev.hidden.mixbufs i
        = (PSP2AUD_OpenAudio s memalignRes openPortRes).1.dev.hidden.rawbuf
          + i.val * (PSP2AUD_OpenAudio s memalignRes openPortRes).1.dev.spec.size) ∧
    (∀ i : Fin NUM_BUFFERS,
      (PSP2AUD_OpenAudio s memalignRes openPortRes).1.dev.hidden.rawbuf
        ≤ (PSP2AUD_OpenAudio s memalignRes openPortRes).1.dev.hidden.mixbufs i ∧
      (PSP2AUD_OpenAudio s memalignRes openPortRes).1.dev.hidden.mixbufs i
          + (PSP2AUD_OpenAudio s memalignRes openPortRes).1.dev.spec.size
        ≤ (PSP2AUD_OpenAudio s memalignRes openPortRes).1.dev.hidden.rawbuf
          + (PSP2AUD_OpenAudio s memalignRes openPortRes).1.dev.spec.size * NUM_BUFFERS) ∧
    (∀ i j : Fin NUM_BUFFERS, i ≠ j →
      (PSP2AUD_OpenAudio s memalignRes openPortRes).1.dev.hidden.mixbufs i
          + (PSP2AUD_OpenAudio s memalignRes openPortRes).1.dev.spec.size
        ≤ (PSP2AUD_OpenAudio s memalignRes openPortRes).1.dev.hidden.mixbufs j ∨
      (PSP2AUD_OpenAudio s memalignRes openPortRes).1.dev.hidden.mixbufs j
          + (PSP2AUD_OpenAudio s memalignRes openPortRes).1.dev.spec.size
        ≤ (PSP2AUD_OpenAudio s memalignRes openPortRes).1.dev.hidden.mixbufs i) := by
  obtain ⟨hm, hp⟩ := (OpenAudio_ok_iff s memalignRes openPortRes).mp hok
  have hraw : (PSP2AUD_OpenAudio s memalignRes openPortRes).1.dev.hidden.rawbuf = memalignRes := by
    rw [OpenAudio_hidden s memalignRes openPortRes hm hp]
  have hmb := OpenAudio_mixbufs s memalignRes openPortRes hm hp
  have hcalls := OpenAudio_calls_exact s memalignRes openPortRes hc hs
  rw [if_neg hm] at hcalls
  have e : (PSP2AUD_OpenAudio s memalignRes openPortRes).1.dev.spec.size * NUM_BUFFERS
      = (PSP2AUD_OpenAudio s memalignRes openPortRes).1.dev.spec.size * 2 := rfl
  refine ⟨hraw, ?_, ?_, ?_, ?_⟩
  · rw [hcalls, List.drop_left]
    simp
  · intro i
    rw [hmb i, hraw]
  · intro i
    rw [hmb i, hraw, e]
    have hi2 : i.val < 2 := i.isLt
    have hi : i.val = 0 ∨ i.val = 1 := by omega
    rcases hi with h | h <;> rw [h] <;> omega
  · intro i j hij
    rw [hmb i, hmb j]
    have hne : i.val ≠ j.val := fun h => hij (Fin.ext h)
    have hi2 : i.val < 2 := i.isLt
    have hj2 : j.val < 2 := j.isLt
    have hi : i.val = 0 ∨ i.val = 1 := by omega
    have hj : j.val = 0 ∨ j.val = 1 := by omega
    rcases hi with h | h <;> rcases hj with h' | h'
    · exact absurd (h.trans h'.symm) hne
    · left; rw [h, h']; omega
    · right; rw [h, h']; omega
    · exact absurd (h.trans h'.symm) hne

/-- Witness for C24: 16-bit stereo with 100 frames requested and the allocation at 4096:
the second slot starts at 4096 + 512. -/
theorem C24_slots_partition_allocation_witness :
    (PSP2AUD_OpenAudio (AudioState.request 44100 AUDIO_S16LSB 2 100) 4096 3).2 = 0 ∧
    (PSP2AUD_OpenAudio (AudioState.request 44100 AUDIO_S16LSB 2 100) 4096 3).1.dev.hidden.mixbufs 1
      = 4608 :=
  ⟨by decide,
    ((C24_slots_partition_allocation (AudioState.request 44100 AUDIO_S16LSB 2 100) 4096 3
      (by decide) (by decide) (by decide)).2.2.1 1).trans (by decide)⟩

/-- C25: the claim asks that the stored sample count is the nearest multiple of 64 at or
above the requested count.  For a request of 65535 samples the count stored by
`PSP2AUD_OpenAudio` is 0: it is below the request, and the nearest multiple of 64 at or
above it, 65536, does not fit the `Uint16` field.  The other half of the claim holds: a
request `64 * q` that fits the field is stored unchanged, and the stored count is always
a multiple of 64. -/
theorem C25_nearest_multiple_fails_at_65535 (s : AudioState) (memalignRes : Nat)
    (openPortRes : Int) :
    (PSP2AUD_OpenAudio (s.setSpec { s.dev.spec with samples := 65535 })
        memalignRes openPortRes).1.dev.spec.samples = 0 ∧
    ¬ (65535 ≤ (PSP2AUD_OpenAudio (s.setSpec { s.dev.spec with samples := 65535 })
        memalignRes openPortRes).1.dev.spec.samples) ∧
    (∀ q : Fin 1024,
      (PSP2AUD_OpenAudio (s.setSpec { s.dev.spec with samples := 64 * q.val })
        memalignRes openPortRes).1.dev.spec.samples = 64 * q.val) ∧
    (∀ r : Fin 65536,
      (PSP2AUD_OpenAudio (s.setSpec { s.dev.spec with samples := r.val })
        memalignRes openPortRes).1.dev.spec.samples % 64 = 0) := by
  have h : (PSP2AUD_OpenAudio (s.setSpec { s.dev.spec with samples := 65535 })
      memalignRes openPortRes).1.dev.spec.samples = 0 := by
    rw [OpenAudio_samples]
    show SCE_AUDIO_SAMPLE_ALIGN 65535 % 2 ^ 16 = 0
    decide
  refine ⟨h, ?_, ?_, ?_⟩
  · rw [h]
    decide
  · intro q
    have hq := q.isLt
    rw [OpenAudio_samples_eq _ _ _ (show (s.setSpec { s.dev.spec with
      samples := 64 * q.val }).dev.spec.samples < 2 ^ 16 from by
        show 64 * q.val < 2 ^ 16
        omega)]
    show (if 64 * q.val ≤ 65472 then (64 * q.val + 63) / 64 * 64 else 0) = 64 * q.val
    split_ifs <;> omega
  · intro r
    exact OpenAudio_samples_mod64 _ _ _ r.isLt

/-- C26: `PSP2AUD_PlayAudio` leaves the channel handle, `rawbuf`, every slot pointer and
the device's `spec` as they were: the device after the call is the device before it with
`next_buffer` replaced. -/
theorem C26_PlayAudio_frame (s : AudioState) :
    (PSP2AUD_PlayAudio s).dev.hidden.channel = s.dev.hidden.channel ∧
    (PSP2AUD_PlayAudio s).dev.hidden.rawbuf = s.dev.hidden.rawbuf ∧
    (∀ i : Fin NUM_BUFFERS,
      (PSP2AUD_PlayAudio s).dev.hidden.mixbufs i = s.dev.hidden.mixbufs i) ∧
    (PSP2AUD_PlayAudio s).dev.spec = s.dev.spec ∧
    (PSP2AUD_PlayAudio s).dev =
      { s.dev with hidden := { s.dev.hidden with
          next_buffer := Int.tmod (toInt32 (s.dev.hidden.next_buffer + 1)) NUM_BUFFERS } } :=
  ⟨rfl, rfl, fun _ => rfl, rfl, rfl⟩

/-- C27: after a successful `PSP2AUD_OpenAudio` (channel count a `Uint8`, requested
sample count a `Uint16`) every byte of the allocation, from `rawbuf` up to but not
including `rawbuf + spec.size * NUM_BUFFERS`, is zero, and so is every byte of every
slot. -/
theorem C27_allocation_zeroed (s : AudioState) (memalignRes : Nat) (openPortRes : Int)
    (hok : (PSP2AUD_OpenAudio s memalignRes openPortRes).2 = 0)
    (hc : s.dev.spec.channels < 2 ^ 8) (hs : s.dev.spec.samples < 2 ^ 16) :
    (∀ a : Nat, (PSP2AUD_OpenAudio s memalignRes openPortRes).1.dev.hidden.rawbuf ≤ a →
      a < (PSP2AUD_OpenAudio s memalignRes openPortRes).1.dev.hidden.rawbuf
          + (PSP2AUD_OpenAudio s memalignRes openPortRes).1.dev.spec.size * NUM_BUFFERS →
      (PSP2AUD_OpenAudio s memalignRes openPortRes).1.mem a = 0) ∧
    (∀ (i : Fin NUM_BUFFERS) (off : Nat),
      off < (PSP2AUD_OpenAudio s memalignRes openPortRes).1.dev.spec.size →
      (PSP2AUD_OpenAudio s memalignRes openPortRes).1.mem
        ((PSP2AUD_OpenAudio s memalignRes openPortRes).1.dev.hidden.mixbufs i + off) = 0) := by
  obtain ⟨hm, hp⟩ := (OpenAudio_ok_iff s memalignRes openPortRes).mp hok
  have hraw : (PSP2AUD_OpenAudio s memalignRes openPortRes).1.dev.hidden.rawbuf = memalignRes := by
    rw [OpenAudio_hidden s memalignRes openPortRes hm hp]
  have hmem := OpenAudio_mem s memalignRes openPortRes hm hp
  rw [(mixlen_exact _ (OpenAudio_size_le s memalignRes openPortRes hc hs)).2] at hmem
  have hzero : ∀ a : Nat, memalignRes ≤ a →
      a < memalignRes + (PSP2AUD_OpenAudio s memalignRes openPortRes).1.dev.spec.size
        * NUM_BUFFERS →
      (PSP2AUD_OpenAudio s memalignRes openPortRes).1.mem a = 0 := by
    intro a h1 h2
    rw [hmem]
    simp only
    rw [if_pos ⟨h1, h2⟩]
  constructor
  · intro a h1 h2
    rw [hraw] at h1 h2
    exact hzero a h1 h2
  · intro i off hoff
    rw [OpenAudio_mixbufs s memalignRes openPortRes hm hp i]
    have e : (PSP2AUD_OpenAudio s memalignRes openPortRes).1.dev.spec.size * NUM_BUFFERS
        = (PSP2AUD_OpenAudio s memalignRes openPortRes).1.dev.spec.size * 2 := rfl
    have hi2 : i.val < 2 := i.isLt
    have hi : i.val = 0 ∨ i.val = 1 := by omega
    apply hzero
    · omega
    · rw [e]
      rcases hi with h | h <;> rw [h] <;> omega

/-- Witness for C27: memory full of 0xFF bytes before the call, 16-bit stereo with 100
frames requested and the allocation at 4096; afterwards the last byte of the
allocation, at 4096 + 1023, is zero and the byte after it is still 0xFF. -/
theorem C27_allocation_zeroed_witness :
    (PSP2AUD_OpenAudio { AudioState.request 44100 AUDIO_S16LSB 2 100 with mem := fun _ => 255 }
      4096 3).2 = 0 ∧
    (PSP2AUD_OpenAudio { AudioState.request 44100 AUDIO_S16LSB 2 100 with mem := fun _ => 255 }
      4096 3).1.mem 5120 = 255 ∧
    (PSP2AUD_OpenAudio { AudioState.request 44100 AUDIO_S16LSB 2 100 with mem := fun _ => 255 }
      4096 3).1.mem 5119 = 0 :=
  ⟨by decide, by decide,
    (C27_allocation_zeroed
      { AudioState.request 44100 AUDIO_S16LSB 2 100 with mem := fun _ => 255 } 4096 3
      (by decide) (by decide) (by decide)).1 5119 (by decide) (by decide)⟩

/-- C28: for every format, every channel count (a `Uint8`) and every requested sample
count (a `Uint16`), the `int` value `mixlen = this->spec.size * NUM_BUFFERS` is the exact
product, is not negative and is below `2 ^ 31`; as the `size_t` handed to `memalign`
(and to `memset`) it is the same number. -/
theorem C28_mixlen_fits_int (s : AudioState) (memalignRes : Nat) (openPortRes : Int)
    (hc : s.dev.spec.channels < 2 ^ 8) (hs : s.dev.spec.samples < 2 ^ 16) :
    toInt32 ((((PSP2AUD_OpenAudio s memalignRes openPortRes).1.dev.spec.size * NUM_BUFFERS)
        % 2 ^ 32 : Nat) : Int)
      = (((PSP2AUD_OpenAudio s memalignRes openPortRes).1.dev.spec.size * NUM_BUFFERS : Nat)
          : Int) ∧
    (0 : Int) ≤ toInt32 ((((PSP2AUD_OpenAudio s memalignRes openPortRes).1.dev.spec.size
        * NUM_BUFFERS) % 2 ^ 32 : Nat) : Int) ∧
    (PSP2AUD_OpenAudio s memalignRes openPortRes).1.dev.spec.size * NUM_BUFFERS < 2 ^ 31 ∧
    (PSP2AUD_OpenAudio s memalignRes openPortRes).1.calls = s.calls ++
      (if memalignRes = 0 then
        [HwCall.memalign 64
          ((PSP2AUD_OpenAudio s memalignRes openPortRes).1.dev.spec.size * NUM_BUFFERS) 0]
      else
        [HwCall.memalign 64
          ((PSP2AUD_OpenAudio s memalignRes openPortRes).1.dev.spec.size * NUM_BUFFERS)
          memalignRes,
         HwCall.sceAudioOutOpenPort SCE_AUDIO_OUT_PORT_TYPE_MAIN
          (PSP2AUD_OpenAudio s memalignRes openPortRes).1.dev.spec.samples 48000
          (if s.dev.spec.channels = 1 then SCE_AUDIO_OUT_MODE_MONO
            else SCE_AUDIO_OUT_MODE_STEREO) openPortRes,
         if openPortRes < 0 then HwCall.free memalignRes
         else HwCall.memset memalignRes 0
          ((PSP2AUD_OpenAudio s memalignRes openPortRes).1.dev.spec.size * NUM_BUFFERS)]) := by
  have hle := OpenAudio_size_le s memalignRes openPortRes hc hs
  have hx := (mixlen_exact _ hle).1
  have e : (PSP2AUD_OpenAudio s memalignRes openPortRes).1.dev.spec.size * NUM_BUFFERS
      = (PSP2AUD_OpenAudio s memalignRes openPortRes).1.dev.spec.size * 2 := rfl
  refine ⟨hx, ?_, ?_, OpenAudio_calls_exact s memalignRes openPortRes hc hs⟩
  · rw [hx]
    exact Int.ofNat_nonneg _
  · rw [e]
    omega

/-- Witness for C28: the largest slot the types allow, format low byte 0xFF, 255
channels and 65472 frames: `mixlen` is 2 * 31 * 255 * 65472 = 1035112320. -/
theorem C28_mixlen_fits_int_witness :
    (AudioState.request 44100 0xFFFF 255 65472).dev.spec.channels < 2 ^ 8 ∧
    (AudioState.request 44100 0xFFFF 255 65472).dev.spec.samples < 2 ^ 16 ∧
    (PSP2AUD_OpenAudio (AudioState.request 44100 0xFFFF 255 65472) 4096 3).1.dev.spec.size
      * NUM_BUFFERS = 1035112320 ∧
    (PSP2AUD_OpenAudio (AudioState.request 44100 0xFFFF 255 65472) 4096 3).1.dev.spec.size
      * NUM_BUFFERS < 2 ^ 31 :=
  ⟨by decide, by decide, by decide,
    (C28_mixlen_fits_int (AudioState.request 44100 0xFFFF 255 65472) 4096 3
      (by decide) (by decide)).2.2.1⟩

/-! ## The claims on destroying a semaphore, on `NULL` and on `SDL_Delay` -/

/-- C21, as the claim states it, fails at the identifier 0, which creation accepts: in
the reference kernel with 0 as its next identifier, `SDL_CreateSemaphore(3)` succeeds
with `semid = 0`, and `SDL_DestroySemaphore` on that semaphore makes no
`sceKernelDeleteSema` call, only the `free` of the wrapper; the kernel semaphore still
exists afterwards. -/
theorem C21_counterexample_semid_0 :
    (SDL_CreateSemaphore vitaKernel
      { kernel := { semas := [], nextUid := 0 }, error := none, calls := [] } 3 true).2
      = some { semid := 0 } ∧
    (SDL_DestroySemaphore vitaKernel
      (SDL_CreateSemaphore vitaKernel
        { kernel := { semas := [], nextUid := 0 }, error := none, calls := [] } 3 true).1
      (some { semid := 0 })).calls
      = [SemCall.SDL_malloc true, SemCall.sceKernelCreateSema "SDL sema" 0 3 255 0,
         SemCall.free] ∧
    (SDL_DestroySemaphore vitaKernel
      (SDL_CreateSemaphore vitaKernel
        { kernel := { semas := [], nextUid := 0 }, error := none, calls := [] } 3 true).1
      (some { semid := 0 })).kernel.find 0 = some { currentCount := 3, maxCount := 255 } := by
  decide

theorem vitaKernel_delete_find (k : VitaKernel) (semid : Int) :
    (vitaKernel.sceKernelDeleteSema k semid).1.find semid = none := by
  simp only [vitaKernel]
  split
  · rename_i h
    exact h
  · simp [VitaKernel.find, List.find?_eq_none]

/-- C21, amended: for every kernel and every semaphore whose identifier is above 0
(`semid > 0`), `SDL_DestroySemaphore` makes exactly two outside calls, one
`sceKernelDeleteSema(semid)` and then the `free` of the wrapper, and leaves the kernel as
the deletion left it; in the reference kernel no semaphore of that identifier exists
afterwards.  `SDL_DestroySemaphore(NULL)` changes nothing and makes no call. -/
theorem C21_destroy_deletes_once (κ : Type) (K : KernelOps κ) (s : SemState κ) (sem : SDL_sem)
    (hpos : 0 < sem.semid) :
    (SDL_DestroySemaphore K s (some sem)).calls
      = s.calls ++ [SemCall.sceKernelDeleteSema sem.semid, SemCall.free] ∧
    (SDL_DestroySemaphore K s (some sem)).kernel = (K.sceKernelDeleteSema s.kernel sem.semid).1 ∧
    (∀ w : SemState VitaKernel,
      (SDL_DestroySemaphore vitaKernel w (some sem)).kernel.find sem.semid = none) ∧
    SDL_DestroySemaphore K s none = s := by
  refine ⟨?_, ?_, ?_, rfl⟩
  · simp [SDL_DestroySemaphore, SemState.call, hpos]
  · simp [SDL_DestroySemaphore, SemState.call, hpos]
  · intro w
    have h : (SDL_DestroySemaphore vitaKernel w (some sem)).kernel
        = (vitaKernel.sceKernelDeleteSema w.kernel sem.semid).1 := by
      simp [SDL_DestroySemaphore, SemState.call, hpos]
    rw [h]
    exact vitaKernel_delete_find _ _

/-- Witness for C21, amended: `SDL_CreateSemaphore(3)` in the reference kernel with no
semaphore yet returns the identifier 1; destroying it deletes kernel semaphore 1 once
and frees the wrapper. -/
theorem C21_destroy_deletes_once_witness :
    (SDL_CreateSemaphore vitaKernel SemState.start 3 true).2 = some { semid := 1 } ∧
    (0 : Int) < ({ semid := 1 } : SDL_sem).semid ∧
    (SDL_DestroySemaphore vitaKernel (SDL_CreateSemaphore vitaKernel SemState.start 3 true).1
      (some { semid := 1 })).calls
      = [SemCall.SDL_malloc true, SemCall.sceKernelCreateSema "SDL sema" 0 3 255 0,
         SemCall.sceKernelDeleteSema 1, SemCall.free] ∧
    (SDL_DestroySemaphore vitaKernel (SDL_CreateSemaphore vitaKernel SemState.start 3 true).1
      (some { semid := 1 })).kernel.find 1 = none :=
  ⟨by decide, by decide,
    ((C21_destroy_deletes_once VitaKernel vitaKernel
      (SDL_CreateSemaphore vitaKernel SemState.start 3 true).1 { semid := 1 }
      (by decide)).1).trans (by decide),
    (C21_destroy_deletes_once VitaKernel vitaKernel
      (SDL_CreateSemaphore vitaKernel SemState.start 3 true).1 { semid := 1 }
      (by decide)).2.2.1 (SDL_CreateSemaphore vitaKernel SemState.start 3 true).1⟩

/-- C29: the claim asks that every wait on a `NULL` semaphore returns a failure result
other than 0, as `SDL_SemPost` does.  For every kernel and every timeout
`SDL_SemWaitTimeout(NULL, t)`, `SDL_SemTryWait(NULL)` and `SDL_SemWait(NULL)` set the
error "Passed a NULL sem", make no kernel call, and return 0, the value that reports a
token taken; `SDL_SemPost(NULL)` sets the same error and returns -1. -/
theorem C29_wait_on_NULL_returns_0 (κ : Type) (K : KernelOps κ) (s : SemState κ) (t : Nat) :
    SDL_SemWaitTimeout K s none t = (s.setError "Passed a NULL sem", some 0) ∧
    SDL_SemTryWait K s none = (s.setError "Passed a NULL sem", some 0) ∧
    SDL_SemWait K s none = (s.setError "Passed a NULL sem", some 0) ∧
    (SDL_SemWaitTimeout K s none t).1.calls = s.calls ∧
    (SDL_SemWaitTimeout K s none t).1.kernel = s.kernel ∧
    (SDL_SemWaitTimeout K s none t).1.error = some "Passed a NULL sem" ∧
    SDL_SemPost K s none = (s.setError "Passed a NULL sem", -1) :=
  ⟨rfl, rfl, rfl, rfl, rfl, rfl, rfl⟩

/-- C30: for every millisecond value `ms`, `SDL_Delay` gives the kernel a delay of
exactly `min(ms, 4294967) * 1000` microseconds, and that product is below `2 ^ 32`. -/
theorem C30_delay_clamped (ms : Nat) :
    SDL_Delay ms = min ms 4294967 * 1000 ∧ min ms 4294967 * 1000 < 2 ^ 32 := by
  have hmax : (0xffffffff : Nat) / 1000 = 4294967 := by decide
  unfold SDL_Delay
  simp only [hmax]
  by_cases h : ms > 4294967
  · rw [if_pos h, Nat.min_eq_right (by omega)]
    decide
  · rw [if_neg h, Nat.min_eq_left (by omega)]
    constructor <;> omega

end SDLPsp2
